import Mathlib

set_option maxRecDepth 8000

/-!
Verification of the Colorado LIHTC map module's paginated ArcGIS fetcher
(`src/js/co-lihtc-map.js`, second module copy, lines 546-1024): the
pagination engine `arcgisQuery`, the filter fallback chain
`tryLoadFromAPI`, the client-side Colorado bounding-box filter, the
embedded-fallback substitution in `loadLIHTC` / `ensureQCT` / `ensureDDA`,
and the embedded `FALLBACK_*` datasets.

Modelling conventions:
  * A JSON number is a decimal `JsNum` (mantissa and fraction length), the
    canonical form `JSON.stringify` renders in plain decimal notation.
  * A network outcome is `FetchResult`: `err` covers every failure of
    `fetchJSON` (non-2xx HTTP status, JSON parse failure, timeout/abort),
    all of which reject the promise and are caught by the `catch` around
    the page fetch; `ok` carries the parsed body.
  * A server is a function from the `resultOffset` of a page request to
    its `FetchResult`; the fixed parts of the query string (where-clause,
    outFields, outSR, f=geojson, ...) select the server, so the fallback
    chain consumes a server per where-filter, `String → Nat → FetchResult`.
  * The engine's run also returns the list of offsets it requested, in
    order, so request-counting claims are statable.
-/

/-- A JSON number as a decimal: value `mant / 10 ^ exp`, canonical
(`exp = 0`, or `mant` not divisible by 10), matching the plain decimal
notation `JSON.stringify` renders for it.  (JavaScript falls back to
exponent notation only beyond 1e21 or below 1e-7; every coordinate or
property magnitude in this module renders in plain decimal.) -/
structure JsNum where
  mant : Int
  exp : Nat
deriving DecidableEq, Repr

/-- A GeoJSON coordinates value: a number or a nested array. -/
inductive Coords where
  | num (x : JsNum)
  | arr (elems : List Coords)

/-- Shorthand `JsNum` constructor used by the transcribed datasets. -/
def jd (m : Int) (e : Nat) : JsNum := { mant := m, exp := e }

/-- Shorthand coordinate-number constructor for the transcribed datasets. -/
def jn (m : Int) (e : Nat) : Coords := Coords.num (jd m e)

/-- A property value of a Feature (string, number or boolean). -/
inductive PropVal where
  | s (v : String)
  | n (v : JsNum)
  | b (v : Bool)
deriving DecidableEq, Repr

/-- A Feature's geometry object: its `type` tag and `coordinates`. -/
structure Geometry where
  gtype : String
  coordinates : Coords

/-- A GeoJSON Feature: nullable geometry and a properties mapping. -/
structure Feature where
  geometry : Option Geometry
  properties : List (String × PropVal)

/-- A FeatureCollection as the module builds one:
`{ type: 'FeatureCollection', features: [...] }`. -/
structure FC where
  type : String
  features : List Feature


/-! ## The HTTP layer and the pagination engine (`arcgisQuery`) -/

/-- The body of one page response, as `arcgisQuery` consumes it after
`fetchJSON` resolves.  `features?` is `some fs` exactly when
`gj && Array.isArray(gj.features)` holds (a null body or a missing/non-array
`features` is `none`); the two flag fields carry the truthiness of
`gj.exceededTransferLimit` and of `gj.properties &&
gj.properties.exceededTransferLimit`. -/
structure GeoJson where
  features? : Option (List Feature)
  exceededTransferLimit : Bool
  propertiesExceededTransferLimit : Bool

/-- Outcome of one `fetchJSON(layerUrl/query?...)` call: `err` for a rejected
promise (non-2xx HTTP status, JSON parse failure, or the 12-second
abort), `ok` for a parsed body. -/
inductive FetchResult where
  | err
  | ok (gj : GeoJson)

/-- The page's feature array: `gj && Array.isArray(gj.features) ? gj.features : []`. -/
def featsOf (gj : GeoJson) : List Feature := gj.features?.getD []

/-- The truncation signal: `!!(gj.exceededTransferLimit || (gj.properties &&
gj.properties.exceededTransferLimit))`. -/
def exceededOf (gj : GeoJson) : Bool :=
  gj.exceededTransferLimit || gj.propertiesExceededTransferLimit

/-- The features a single page outcome contributes ([] for a failed page). -/
def retrieved (r : FetchResult) : List Feature :=
  match r with
  | FetchResult.err => []
  | FetchResult.ok gj => featsOf gj

/-- The fixed page size: `const PAGE = 1000`. -/
def PAGE : Nat := 1000

/-- The `while (true)` loop of `arcgisQuery` (co-lihtc-map.js:559-581).
One call = one iteration: request `offset`; on a rejected fetch `break`
(the error is logged, not rethrown); on an empty (or non-array) `features`
`break`; append the page to `acc`; when the truncation flag is unset and
the page is short, `break`; then `offset += PAGE; pages++` and `break` once
`pages > 150`.  The source counts `pages` up from 0 and leaves after the
151st request; here `remaining = 150 - pages` counts the allowed further
iterations down, which is the same loop with a structurally decreasing
argument.  Returns the accumulated features and the requested offsets in
order. -/
def queryLoop (server : Nat → FetchResult) (offset : Nat) (remaining : Nat)
    (acc : List Feature) : List Feature × List Nat :=
  match server offset with
  | FetchResult.err => (acc, [offset])
  | FetchResult.ok gj =>
      let feats := featsOf gj
      if feats.isEmpty then (acc, [offset])
      else
        let acc2 := acc ++ feats
        if !exceededOf gj && decide (feats.length < PAGE) then (acc2, [offset])
        else
          match remaining with
          | 0 => (acc2, [offset])
          | r + 1 =>
              let q := queryLoop server (offset + PAGE) r acc2
              (q.1, offset :: q.2)

/-- `arcgisQuery` (co-lihtc-map.js:554-583): paginated query returning
`{ type: 'FeatureCollection', features: all }` — always a collection, never
a rejection — paired with the trace of requested offsets. -/
def arcgisQuery (server : Nat → FetchResult) : FC × List Nat :=
  let r := queryLoop server 0 150 []
  ({ type := "FeatureCollection", features := r.1 }, r.2)

/-- A page response the loop continues past (when the hard ceiling still
permits it): a successful fetch, a non-empty feature array, and the
short-page stop test false. -/
def continues (r : FetchResult) : Prop :=
  ∃ gj, r = FetchResult.ok gj ∧ featsOf gj ≠ [] ∧
    (!exceededOf gj && decide ((featsOf gj).length < PAGE)) = false

/-! ## The client-side Colorado bounding-box filter -/

/-- The rational value of a decimal number. -/
def JsNum.toRat (x : JsNum) : ℚ := (x.mant : ℚ) / (10 : ℚ) ^ x.exp

/-- Exact comparison of the decimal `x` with the rational `a / b` (for
`b > 0`): `x > a / b` iff `b * mant > a * 10 ^ exp`.  Stated over integers
so that it evaluates by kernel reduction; `gtFrac_iff_toRat` below connects
it to the rational reading. -/
def JsNum.gtFrac (x : JsNum) (a b : Int) : Bool :=
  decide (b * x.mant > a * 10 ^ x.exp)

/-- Exact comparison `x < a / b` for `b > 0`, as `gtFrac`. -/
def JsNum.ltFrac (x : JsNum) (a b : Int) : Bool :=
  decide (b * x.mant < a * 10 ^ x.exp)

/-- Whether the global regex with pattern `-?\d+\.?\d+` matches this
number's rendering in
`JSON.stringify` output.  The pattern needs at least two digit characters,
so a token is matched (in full, sign included) iff its plain decimal
rendering has two or more digits: always when a fraction is printed
(`exp ≥ 1` gives an integer digit plus a fraction digit), otherwise
iff the integer part `|mant| / 10 ^ exp` has two digits, i.e. is ≥ 10.
Single-digit integers such as `7` are NOT matched and vanish from the
extracted list. -/
def JsNum.extracted (x : JsNum) : Bool :=
  decide (1 ≤ x.exp) || decide (10 ≤ x.mant.natAbs / 10 ^ x.exp)

mutual
/-- The numbers that `JSON.stringify(coordinates)`, matched globally against
the pattern `-?\d+\.?\d+` and mapped through `Number`, produces, in order: every number of the nested value whose rendering the
regex matches (commas and brackets separate the tokens, so no match spans
two numbers). -/
def Coords.flat : Coords → List JsNum
  | Coords.num x => if x.extracted then [x] else []
  | Coords.arr cs => Coords.flatList cs

/--`Coords.flat` over the elements of an array, concatenated. -/
def Coords.flatList : List Coords → List JsNum
  | [] => []
  | c :: cs => Coords.flat c ++ Coords.flatList cs
end

/-- The per-vertex test `flat[i]>-110 && flat[i]<-102 && flat[i+1]>36.5 &&
flat[i+1]<41.5` (co-lihtc-map.js:959), an open box around Colorado. -/
def inCoBbox (lng lat : JsNum) : Bool :=
  lng.gtFrac (-110) 1 && lng.ltFrac (-102) 1 &&
    lat.gtFrac 73 2 && lat.ltFrac 83 2

/-- The scan `for (let i=0; i<flat.length-1; i+=2) if (...) return true`:
test consecutive non-overlapping pairs, a trailing unpaired element tests
nothing. -/
def pairScan : List JsNum → Bool
  | x :: y :: rest => inCoBbox x y || pairScan rest
  | _ => false

/-- The `features.filter(f => ...)` body of `tryLoadFromAPI`
(co-lihtc-map.js:955-961): drop features with no geometry, keep a feature
iff some extracted coordinate pair lies in the Colorado box. -/
def coBboxFilter (features : List Feature) : List Feature :=
  features.filter fun f =>
    match f.geometry with
    | none => false
    | some g => pairScan g.coordinates.flat

/-! ## The filter fallback chain (`tryLoadFromAPI`) -/

/-- The ordered where-filter candidates of `tryLoadFromAPI`
(co-lihtc-map.js:948): the caller's Colorado filter first, then common
state-field spellings, then the match-all `1=1` (filtered client-side). -/
def filters (coWhere : String) : List String :=
  [coWhere, "STATE_ABBR='CO'", "STATE='CO'", "STUSAB='CO'", "STATEFP='08'", "1=1"]

/-- The collection candidate `w` contributes after the chain's processing:
the paginated query's features, passed through `coBboxFilter` when `w` is
the match-all filter.  Empty exactly when the chain skips `w`. -/
def processedFeatures (server : String → Nat → FetchResult) (w : String) :
    List Feature :=
  let gj := (arcgisQuery (server w)).1
  if w = "1=1" then coBboxFilter gj.features else gj.features

/-- The `for (const where of filters)` loop of `tryLoadFromAPI`
(co-lihtc-map.js:949-965): query each candidate in order; skip it when the
result is empty, or (for `1=1`) empty after the Colorado box filter; return
`{...gj, features}` for the first candidate left non-empty.  Nothing in the
loop body rejects in this model (the paginated query never throws), so the
`catch` around the body has no effect.  Also returns the list of candidates
attempted, in order. -/
def tryFilters (server : String → Nat → FetchResult) :
    List String → Option FC × List String
  | [] => (none, [])
  | w :: ws =>
      let gj := (arcgisQuery (server w)).1
      if gj.features.isEmpty then
        let r := tryFilters server ws
        (r.1, w :: r.2)
      else
        let features := if w = "1=1" then coBboxFilter gj.features else gj.features
        if features.isEmpty then
          let r := tryFilters server ws
          (r.1, w :: r.2)
        else (some { gj with features := features }, [w])

/-- `tryLoadFromAPI(primaryUrl, coWhere)` (co-lihtc-map.js:947-967): run the
candidate chain; when every candidate is exhausted, `throw new Error('API
exhausted')`, modelled as `Except.error`.  The URL and the fixed query
parameters are abstracted into `server`. -/
def tryLoadFromAPI (server : String → Nat → FetchResult) (coWhere : String) :
    Except String FC × List String :=
  (match (tryFilters server (filters coWhere)).1 with
   | some fc => Except.ok fc
   | none => Except.error "API exhausted",
   (tryFilters server (filters coWhere)).2)
/-- The embedded fallback dataset `FALLBACK_LIHTC` of co-lihtc-map.js, transcribed feature by feature. -/
def FALLBACK_LIHTC : FC := { type := "FeatureCollection", features := [
  { geometry := some { gtype := "Point", coordinates := Coords.arr [jn (-1049903) 4, jn 397392 4] },
    properties := [("PROJECT", PropVal.s "Lincoln Park Apartments"), ("PROJ_ADD", PropVal.s "1500 W 13th Ave"), ("PROJ_CTY", PropVal.s "Denver"), ("PROJ_ST", PropVal.s "CO"), ("N_UNITS", PropVal.n (jd 120 0)), ("LI_UNITS", PropVal.n (jd 120 0)), ("YR_PIS", PropVal.n (jd 2018 0)), ("CREDIT", PropVal.s "9%"), ("QCT", PropVal.b true), ("DDA", PropVal.b false), ("CNTY_NAME", PropVal.s "Denver")] },
  { geometry := some { gtype := "Point", coordinates := Coords.arr [jn (-1049748) 4, jn 397519 4] },
    properties := [("PROJECT", PropVal.s "Curtis Park Lofts"), ("PROJ_ADD", PropVal.s "3100 Downing St"), ("PROJ_CTY", PropVal.s "Denver"), ("PROJ_ST", PropVal.s "CO"), ("N_UNITS", PropVal.n (jd 72 0)), ("LI_UNITS", PropVal.n (jd 72 0)), ("YR_PIS", PropVal.n (jd 2016 0)), ("CREDIT", PropVal.s "9%"), ("QCT", PropVal.b true), ("DDA", PropVal.b false), ("CNTY_NAME", PropVal.s "Denver")] },
  { geometry := some { gtype := "Point", coordinates := Coords.arr [jn (-1049875) 4, jn 397281 4] },
    properties := [("PROJECT", PropVal.s "Baker Senior Residences"), ("PROJ_ADD", PropVal.s "250 W Alameda Ave"), ("PROJ_CTY", PropVal.s "Denver"), ("PROJ_ST", PropVal.s "CO"), ("N_UNITS", PropVal.n (jd 55 0)), ("LI_UNITS", PropVal.n (jd 55 0)), ("YR_PIS", PropVal.n (jd 2020 0)), ("CREDIT", PropVal.s "9%"), ("QCT", PropVal.b true), ("DDA", PropVal.b false), ("CNTY_NAME", PropVal.s "Denver")] },
  { geometry := some { gtype := "Point", coordinates := Coords.arr [jn (-104962) 3, jn 397617 4] },
    properties := [("PROJECT", PropVal.s "Five Points Commons"), ("PROJ_ADD", PropVal.s "2800 Welton St"), ("PROJ_CTY", PropVal.s "Denver"), ("PROJ_ST", PropVal.s "CO"), ("N_UNITS", PropVal.n (jd 96 0)), ("LI_UNITS", PropVal.n (jd 96 0)), ("YR_PIS", PropVal.n (jd 2019 0)), ("CREDIT", PropVal.s "9%"), ("QCT", PropVal.b true), ("DDA", PropVal.b false), ("CNTY_NAME", PropVal.s "Denver")] },
  { geometry := some { gtype := "Point", coordinates := Coords.arr [jn (-104954) 3, jn 396934 4] },
    properties := [("PROJECT", PropVal.s "Sun Valley Senior Housing"), ("PROJ_ADD", PropVal.s "4500 Morrison Rd"), ("PROJ_CTY", PropVal.s "Denver"), ("PROJ_ST", PropVal.s "CO"), ("N_UNITS", PropVal.n (jd 60 0)), ("LI_UNITS", PropVal.n (jd 60 0)), ("YR_PIS", PropVal.n (jd 2021 0)), ("CREDIT", PropVal.s "9%"), ("QCT", PropVal.b true), ("DDA", PropVal.b false), ("CNTY_NAME", PropVal.s "Denver")] },
  { geometry := some { gtype := "Point", coordinates := Coords.arr [jn (-104998) 3, jn 397545 4] },
    properties := [("PROJECT", PropVal.s "Highland Gardens"), ("PROJ_ADD", PropVal.s "3301 Navajo St"), ("PROJ_CTY", PropVal.s "Denver"), ("PROJ_ST", PropVal.s "CO"), ("N_UNITS", PropVal.n (jd 84 0)), ("LI_UNITS", PropVal.n (jd 84 0)), ("YR_PIS", PropVal.n (jd 2017 0)), ("CREDIT", PropVal.s "4%"), ("QCT", PropVal.b false), ("DDA", PropVal.b true), ("CNTY_NAME", PropVal.s "Denver")] },
  { geometry := some { gtype := "Point", coordinates := Coords.arr [jn (-1049722) 4, jn 397755 4] },
    properties := [("PROJECT", PropVal.s "Globeville Flats"), ("PROJ_ADD", PropVal.s "4400 York St"), ("PROJ_CTY", PropVal.s "Denver"), ("PROJ_ST", PropVal.s "CO"), ("N_UNITS", PropVal.n (jd 110 0)), ("LI_UNITS", PropVal.n (jd 110 0)), ("YR_PIS", PropVal.n (jd 2022 0)), ("CREDIT", PropVal.s "9%"), ("QCT", PropVal.b true), ("DDA", PropVal.b true), ("CNTY_NAME", PropVal.s "Denver")] },
  { geometry := some { gtype := "Point", coordinates := Coords.arr [jn (-1049461) 4, jn 397394 4] },
    properties := [("PROJECT", PropVal.s "Elyria-Swansea Homes"), ("PROJ_ADD", PropVal.s "5501 Washington St"), ("PROJ_CTY", PropVal.s "Denver"), ("PROJ_ST", PropVal.s "CO"), ("N_UNITS", PropVal.n (jd 78 0)), ("LI_UNITS", PropVal.n (jd 78 0)), ("YR_PIS", PropVal.n (jd 2020 0)), ("CREDIT", PropVal.s "9%"), ("QCT", PropVal.b true), ("DDA", PropVal.b false), ("CNTY_NAME", PropVal.s "Denver")] },
  { geometry := some { gtype := "Point", coordinates := Coords.arr [jn (-104931) 3, jn 39689 3] },
    properties := [("PROJECT", PropVal.s "Montbello Seniors"), ("PROJ_ADD", PropVal.s "12000 E MLK Jr Blvd"), ("PROJ_CTY", PropVal.s "Denver"), ("PROJ_ST", PropVal.s "CO"), ("N_UNITS", PropVal.n (jd 65 0)), ("LI_UNITS", PropVal.n (jd 65 0)), ("YR_PIS", PropVal.n (jd 2018 0)), ("CREDIT", PropVal.s "9%"), ("QCT", PropVal.b true), ("DDA", PropVal.b false), ("CNTY_NAME", PropVal.s "Denver")] },
  { geometry := some { gtype := "Point", coordinates := Coords.arr [jn (-1048851) 4, jn 396784 4] },
    properties := [("PROJECT", PropVal.s "Aurora Family Commons"), ("PROJ_ADD", PropVal.s "1700 S Havana St"), ("PROJ_CTY", PropVal.s "Aurora"), ("PROJ_ST", PropVal.s "CO"), ("N_UNITS", PropVal.n (jd 150 0)), ("LI_UNITS", PropVal.n (jd 150 0)), ("YR_PIS", PropVal.n (jd 2021 0)), ("CREDIT", PropVal.s "4%"), ("QCT", PropVal.b false), ("DDA", PropVal.b true), ("CNTY_NAME", PropVal.s "Arapahoe")] },
  { geometry := some { gtype := "Point", coordinates := Coords.arr [jn (-1048325) 4, jn 39695 3] },
    properties := [("PROJECT", PropVal.s "Aurora Senior Village"), ("PROJ_ADD", PropVal.s "16000 E Colfax Ave"), ("PROJ_CTY", PropVal.s "Aurora"), ("PROJ_ST", PropVal.s "CO"), ("N_UNITS", PropVal.n (jd 90 0)), ("LI_UNITS", PropVal.n (jd 90 0)), ("YR_PIS", PropVal.n (jd 2019 0)), ("CREDIT", PropVal.s "9%"), ("QCT", PropVal.b true), ("DDA", PropVal.b false), ("CNTY_NAME", PropVal.s "Arapahoe")] },
  { geometry := some { gtype := "Point", coordinates := Coords.arr [jn (-1048629) 4, jn 397145 4] },
    properties := [("PROJECT", PropVal.s "Peoria Crossing"), ("PROJ_ADD", PropVal.s "11400 E 26th Ave"), ("PROJ_CTY", PropVal.s "Aurora"), ("PROJ_ST", PropVal.s "CO"), ("N_UNITS", PropVal.n (jd 108 0)), ("LI_UNITS", PropVal.n (jd 108 0)), ("YR_PIS", PropVal.n (jd 2020 0)), ("CREDIT", PropVal.s "4%"), ("QCT", PropVal.b false), ("DDA", PropVal.b true), ("CNTY_NAME", PropVal.s "Adams")] },
  { geometry := some { gtype := "Point", coordinates := Coords.arr [jn (-1049921) 4, jn 39837 3] },
    properties := [("PROJECT", PropVal.s "Thornton Gardens"), ("PROJ_ADD", PropVal.s "9500 Colorado Blvd"), ("PROJ_CTY", PropVal.s "Thornton"), ("PROJ_ST", PropVal.s "CO"), ("N_UNITS", PropVal.n (jd 120 0)), ("LI_UNITS", PropVal.n (jd 120 0)), ("YR_PIS", PropVal.n (jd 2022 0)), ("CREDIT", PropVal.s "4%"), ("QCT", PropVal.b false), ("DDA", PropVal.b true), ("CNTY_NAME", PropVal.s "Adams")] },
  { geometry := some { gtype := "Point", coordinates := Coords.arr [jn (-1050022) 4, jn 398562 4] },
    properties := [("PROJECT", PropVal.s "Westminster Commons"), ("PROJ_ADD", PropVal.s "7600 Federal Blvd"), ("PROJ_CTY", PropVal.s "Westminster"), ("PROJ_ST", PropVal.s "CO"), ("N_UNITS", PropVal.n (jd 80 0)), ("LI_UNITS", PropVal.n (jd 80 0)), ("YR_PIS", PropVal.n (jd 2017 0)), ("CREDIT", PropVal.s "9%"), ("QCT", PropVal.b true), ("DDA", PropVal.b false), ("CNTY_NAME", PropVal.s "Adams")] },
  { geometry := some { gtype := "Point", coordinates := Coords.arr [jn (-104953) 3, jn 398895 4] },
    properties := [("PROJECT", PropVal.s "Brighton Family Flats"), ("PROJ_ADD", PropVal.s "450 N Main St"), ("PROJ_CTY", PropVal.s "Brighton"), ("PROJ_ST", PropVal.s "CO"), ("N_UNITS", PropVal.n (jd 66 0)), ("LI_UNITS", PropVal.n (jd 66 0)), ("YR_PIS", PropVal.n (jd 2023 0)), ("CREDIT", PropVal.s "9%"), ("QCT", PropVal.b false), ("DDA", PropVal.b true), ("CNTY_NAME", PropVal.s "Adams")] },
  { geometry := some { gtype := "Point", coordinates := Coords.arr [jn (-1050866) 4, jn 39643 3] },
    properties := [("PROJECT", PropVal.s "Lakewood Pointe"), ("PROJ_ADD", PropVal.s "1200 Garrison St"), ("PROJ_CTY", PropVal.s "Lakewood"), ("PROJ_ST", PropVal.s "CO"), ("N_UNITS", PropVal.n (jd 92 0)), ("LI_UNITS", PropVal.n (jd 92 0)), ("YR_PIS", PropVal.n (jd 2018 0)), ("CREDIT", PropVal.s "9%"), ("QCT", PropVal.b false), ("DDA", PropVal.b true), ("CNTY_NAME", PropVal.s "Jefferson")] },
  { geometry := some { gtype := "Point", coordinates := Coords.arr [jn (-1051022) 4, jn 397531 4] },
    properties := [("PROJECT", PropVal.s "Arvada Senior Housing"), ("PROJ_ADD", PropVal.s "7700 Grandview Ave"), ("PROJ_CTY", PropVal.s "Arvada"), ("PROJ_ST", PropVal.s "CO"), ("N_UNITS", PropVal.n (jd 70 0)), ("LI_UNITS", PropVal.n (jd 70 0)), ("YR_PIS", PropVal.n (jd 2016 0)), ("CREDIT", PropVal.s "9%"), ("QCT", PropVal.b false), ("DDA", PropVal.b true), ("CNTY_NAME", PropVal.s "Jefferson")] },
  { geometry := some { gtype := "Point", coordinates := Coords.arr [jn (-1050749) 4, jn 399028 4] },
    properties := [("PROJECT", PropVal.s "Broomfield Crossings"), ("PROJ_ADD", PropVal.s "1 W 1st Ave"), ("PROJ_CTY", PropVal.s "Broomfield"), ("PROJ_ST", PropVal.s "CO"), ("N_UNITS", PropVal.n (jd 88 0)), ("LI_UNITS", PropVal.n (jd 88 0)), ("YR_PIS", PropVal.n (jd 2020 0)), ("CREDIT", PropVal.s "4%"), ("QCT", PropVal.b false), ("DDA", PropVal.b true), ("CNTY_NAME", PropVal.s "Broomfield")] },
  { geometry := some { gtype := "Point", coordinates := Coords.arr [jn (-1052705) 4, jn 40015 3] },
    properties := [("PROJECT", PropVal.s "Boulder Commons"), ("PROJ_ADD", PropVal.s "1850 Folsom St"), ("PROJ_CTY", PropVal.s "Boulder"), ("PROJ_ST", PropVal.s "CO"), ("N_UNITS", PropVal.n (jd 100 0)), ("LI_UNITS", PropVal.n (jd 100 0)), ("YR_PIS", PropVal.n (jd 2021 0)), ("CREDIT", PropVal.s "9%"), ("QCT", PropVal.b false), ("DDA", PropVal.b true), ("CNTY_NAME", PropVal.s "Boulder")] },
  { geometry := some { gtype := "Point", coordinates := Coords.arr [jn (-1051019) 4, jn 400659 4] },
    properties := [("PROJECT", PropVal.s "Longmont Family Apts"), ("PROJ_ADD", PropVal.s "1200 Coffman St"), ("PROJ_CTY", PropVal.s "Longmont"), ("PROJ_ST", PropVal.s "CO"), ("N_UNITS", PropVal.n (jd 76 0)), ("LI_UNITS", PropVal.n (jd 76 0)), ("YR_PIS", PropVal.n (jd 2019 0)), ("CREDIT", PropVal.s "9%"), ("QCT", PropVal.b true), ("DDA", PropVal.b false), ("CNTY_NAME", PropVal.s "Boulder")] },
  { geometry := some { gtype := "Point", coordinates := Coords.arr [jn (-1048214) 4, jn 388339 4] },
    properties := [("PROJECT", PropVal.s "Springs Family Village"), ("PROJ_ADD", PropVal.s "2500 E Platte Ave"), ("PROJ_CTY", PropVal.s "Colorado Springs"), ("PROJ_ST", PropVal.s "CO"), ("N_UNITS", PropVal.n (jd 130 0)), ("LI_UNITS", PropVal.n (jd 130 0)), ("YR_PIS", PropVal.n (jd 2018 0)), ("CREDIT", PropVal.s "9%"), ("QCT", PropVal.b true), ("DDA", PropVal.b false), ("CNTY_NAME", PropVal.s "El Paso")] },
  { geometry := some { gtype := "Point", coordinates := Coords.arr [jn (-1048614) 4, jn 388658 4] },
    properties := [("PROJECT", PropVal.s "Pikes Peak Seniors"), ("PROJ_ADD", PropVal.s "305 W Cimarron St"), ("PROJ_CTY", PropVal.s "Colorado Springs"), ("PROJ_ST", PropVal.s "CO"), ("N_UNITS", PropVal.n (jd 75 0)), ("LI_UNITS", PropVal.n (jd 75 0)), ("YR_PIS", PropVal.n (jd 2017 0)), ("CREDIT", PropVal.s "9%"), ("QCT", PropVal.b true), ("DDA", PropVal.b false), ("CNTY_NAME", PropVal.s "El Paso")] },
  { geometry := some { gtype := "Point", coordinates := Coords.arr [jn (-1047981) 4, jn 387826 4] },
    properties := [("PROJECT", PropVal.s "Fountain Meadows"), ("PROJ_ADD", PropVal.s "200 Iowa Ave"), ("PROJ_CTY", PropVal.s "Fountain"), ("PROJ_ST", PropVal.s "CO"), ("N_UNITS", PropVal.n (jd 60 0)), ("LI_UNITS", PropVal.n (jd 60 0)), ("YR_PIS", PropVal.n (jd 2020 0)), ("CREDIT", PropVal.s "9%"), ("QCT", PropVal.b false), ("DDA", PropVal.b false), ("CNTY_NAME", PropVal.s "El Paso")] },
  { geometry := some { gtype := "Point", coordinates := Coords.arr [jn (-1049044) 4, jn 389271 4] },
    properties := [("PROJECT", PropVal.s "Northgate Apts"), ("PROJ_ADD", PropVal.s "5820 Tutt Blvd"), ("PROJ_CTY", PropVal.s "Colorado Springs"), ("PROJ_ST", PropVal.s "CO"), ("N_UNITS", PropVal.n (jd 95 0)), ("LI_UNITS", PropVal.n (jd 95 0)), ("YR_PIS", PropVal.n (jd 2022 0)), ("CREDIT", PropVal.s "4%"), ("QCT", PropVal.b false), ("DDA", PropVal.b false), ("CNTY_NAME", PropVal.s "El Paso")] },
  { geometry := some { gtype := "Point", coordinates := Coords.arr [jn (-1050844) 4, jn 405853 4] },
    properties := [("PROJECT", PropVal.s "Fort Collins Commons"), ("PROJ_ADD", PropVal.s "424 Pine St"), ("PROJ_CTY", PropVal.s "Fort Collins"), ("PROJ_ST", PropVal.s "CO"), ("N_UNITS", PropVal.n (jd 104 0)), ("LI_UNITS", PropVal.n (jd 104 0)), ("YR_PIS", PropVal.n (jd 2019 0)), ("CREDIT", PropVal.s "9%"), ("QCT", PropVal.b false), ("DDA", PropVal.b true), ("CNTY_NAME", PropVal.s "Larimer")] },
  { geometry := some { gtype := "Point", coordinates := Coords.arr [jn (-10514) 2, jn 403772 4] },
    properties := [("PROJECT", PropVal.s "Loveland Senior Village"), ("PROJ_ADD", PropVal.s "1600 N Lincoln Ave"), ("PROJ_CTY", PropVal.s "Loveland"), ("PROJ_ST", PropVal.s "CO"), ("N_UNITS", PropVal.n (jd 68 0)), ("LI_UNITS", PropVal.n (jd 68 0)), ("YR_PIS", PropVal.n (jd 2016 0)), ("CREDIT", PropVal.s "9%"), ("QCT", PropVal.b false), ("DDA", PropVal.b false), ("CNTY_NAME", PropVal.s "Larimer")] },
  { geometry := some { gtype := "Point", coordinates := Coords.arr [jn (-1046914) 4, jn 404233 4] },
    properties := [("PROJECT", PropVal.s "Greeley Flats"), ("PROJ_ADD", PropVal.s "900 10th St"), ("PROJ_CTY", PropVal.s "Greeley"), ("PROJ_ST", PropVal.s "CO"), ("N_UNITS", PropVal.n (jd 90 0)), ("LI_UNITS", PropVal.n (jd 90 0)), ("YR_PIS", PropVal.n (jd 2020 0)), ("CREDIT", PropVal.s "9%"), ("QCT", PropVal.b true), ("DDA", PropVal.b false), ("CNTY_NAME", PropVal.s "Weld")] },
  { geometry := some { gtype := "Point", coordinates := Coords.arr [jn (-1047099) 4, jn 403945 4] },
    properties := [("PROJECT", PropVal.s "Evans Gardens"), ("PROJ_ADD", PropVal.s "1400 37th St"), ("PROJ_CTY", PropVal.s "Evans"), ("PROJ_ST", PropVal.s "CO"), ("N_UNITS", PropVal.n (jd 72 0)), ("LI_UNITS", PropVal.n (jd 72 0)), ("YR_PIS", PropVal.n (jd 2018 0)), ("CREDIT", PropVal.s "9%"), ("QCT", PropVal.b true), ("DDA", PropVal.b false), ("CNTY_NAME", PropVal.s "Weld")] },
  { geometry := some { gtype := "Point", coordinates := Coords.arr [jn (-1046091) 4, jn 382544 4] },
    properties := [("PROJECT", PropVal.s "Pueblo Senior Manor"), ("PROJ_ADD", PropVal.s "215 N Santa Fe Ave"), ("PROJ_CTY", PropVal.s "Pueblo"), ("PROJ_ST", PropVal.s "CO"), ("N_UNITS", PropVal.n (jd 80 0)), ("LI_UNITS", PropVal.n (jd 80 0)), ("YR_PIS", PropVal.n (jd 2017 0)), ("CREDIT", PropVal.s "9%"), ("QCT", PropVal.b true), ("DDA", PropVal.b false), ("CNTY_NAME", PropVal.s "Pueblo")] },
  { geometry := some { gtype := "Point", coordinates := Coords.arr [jn (-104592) 3, jn 38274 3] },
    properties := [("PROJECT", PropVal.s "Belmont Apts"), ("PROJ_ADD", PropVal.s "2100 Jerry Murphy Rd"), ("PROJ_CTY", PropVal.s "Pueblo"), ("PROJ_ST", PropVal.s "CO"), ("N_UNITS", PropVal.n (jd 66 0)), ("LI_UNITS", PropVal.n (jd 66 0)), ("YR_PIS", PropVal.n (jd 2015 0)), ("CREDIT", PropVal.s "9%"), ("QCT", PropVal.b true), ("DDA", PropVal.b false), ("CNTY_NAME", PropVal.s "Pueblo")] },
  { geometry := some { gtype := "Point", coordinates := Coords.arr [jn (-1085506) 4, jn 390639 4] },
    properties := [("PROJECT", PropVal.s "Grand Junction Crossroads"), ("PROJ_ADD", PropVal.s "700 North Ave"), ("PROJ_CTY", PropVal.s "Grand Junction"), ("PROJ_ST", PropVal.s "CO"), ("N_UNITS", PropVal.n (jd 85 0)), ("LI_UNITS", PropVal.n (jd 85 0)), ("YR_PIS", PropVal.n (jd 2021 0)), ("CREDIT", PropVal.s "9%"), ("QCT", PropVal.b true), ("DDA", PropVal.b false), ("CNTY_NAME", PropVal.s "Mesa")] },
  { geometry := some { gtype := "Point", coordinates := Coords.arr [jn (-1084748) 4, jn 390877 4] },
    properties := [("PROJECT", PropVal.s "Mesa Senior Commons"), ("PROJ_ADD", PropVal.s "2900 Patterson Rd"), ("PROJ_CTY", PropVal.s "Grand Junction"), ("PROJ_ST", PropVal.s "CO"), ("N_UNITS", PropVal.n (jd 60 0)), ("LI_UNITS", PropVal.n (jd 60 0)), ("YR_PIS", PropVal.n (jd 2018 0)), ("CREDIT", PropVal.s "9%"), ("QCT", PropVal.b false), ("DDA", PropVal.b false), ("CNTY_NAME", PropVal.s "Mesa")] },
  { geometry := some { gtype := "Point", coordinates := Coords.arr [jn (-1068317) 4, jn 396433 4] },
    properties := [("PROJECT", PropVal.s "Eagle Valley Workforce Housing"), ("PROJ_ADD", PropVal.s "1000 Chambers Ave"), ("PROJ_CTY", PropVal.s "Eagle"), ("PROJ_ST", PropVal.s "CO"), ("N_UNITS", PropVal.n (jd 50 0)), ("LI_UNITS", PropVal.n (jd 50 0)), ("YR_PIS", PropVal.n (jd 2022 0)), ("CREDIT", PropVal.s "9%"), ("QCT", PropVal.b false), ("DDA", PropVal.b true), ("CNTY_NAME", PropVal.s "Eagle")] },
  { geometry := some { gtype := "Point", coordinates := Coords.arr [jn (-1063742) 4, jn 395505 4] },
    properties := [("PROJECT", PropVal.s "Summit County Workforce Apts"), ("PROJ_ADD", PropVal.s "560 Straight Creek Dr"), ("PROJ_CTY", PropVal.s "Dillon"), ("PROJ_ST", PropVal.s "CO"), ("N_UNITS", PropVal.n (jd 44 0)), ("LI_UNITS", PropVal.n (jd 44 0)), ("YR_PIS", PropVal.n (jd 2021 0)), ("CREDIT", PropVal.s "9%"), ("QCT", PropVal.b false), ("DDA", PropVal.b true), ("CNTY_NAME", PropVal.s "Summit")] },
  { geometry := some { gtype := "Point", coordinates := Coords.arr [jn (-1073317) 4, jn 39543 3] },
    properties := [("PROJECT", PropVal.s "Rifle Family Residences"), ("PROJ_ADD", PropVal.s "202 Railroad Ave"), ("PROJ_CTY", PropVal.s "Rifle"), ("PROJ_ST", PropVal.s "CO"), ("N_UNITS", PropVal.n (jd 48 0)), ("LI_UNITS", PropVal.n (jd 48 0)), ("YR_PIS", PropVal.n (jd 2019 0)), ("CREDIT", PropVal.s "9%"), ("QCT", PropVal.b false), ("DDA", PropVal.b false), ("CNTY_NAME", PropVal.s "Garfield")] },
  { geometry := some { gtype := "Point", coordinates := Coords.arr [jn (-1076723) 4, jn 39548 3] },
    properties := [("PROJECT", PropVal.s "Glenwood Commons"), ("PROJ_ADD", PropVal.s "1625 Grand Ave"), ("PROJ_CTY", PropVal.s "Glenwood Springs"), ("PROJ_ST", PropVal.s "CO"), ("N_UNITS", PropVal.n (jd 56 0)), ("LI_UNITS", PropVal.n (jd 56 0)), ("YR_PIS", PropVal.n (jd 2020 0)), ("CREDIT", PropVal.s "9%"), ("QCT", PropVal.b false), ("DDA", PropVal.b true), ("CNTY_NAME", PropVal.s "Garfield")] },
  { geometry := some { gtype := "Point", coordinates := Coords.arr [jn (-1068317) 4, jn 40485 3] },
    properties := [("PROJECT", PropVal.s "Steamboat Affordable Homes"), ("PROJ_ADD", PropVal.s "1775 Hilltop Pkwy"), ("PROJ_CTY", PropVal.s "Steamboat Springs"), ("PROJ_ST", PropVal.s "CO"), ("N_UNITS", PropVal.n (jd 36 0)), ("LI_UNITS", PropVal.n (jd 36 0)), ("YR_PIS", PropVal.n (jd 2023 0)), ("CREDIT", PropVal.s "9%"), ("QCT", PropVal.b false), ("DDA", PropVal.b true), ("CNTY_NAME", PropVal.s "Routt")] },
  { geometry := some { gtype := "Point", coordinates := Coords.arr [jn (-1078659) 4, jn 406133 4] },
    properties := [("PROJECT", PropVal.s "Craig Senior Apts"), ("PROJ_ADD", PropVal.s "440 Yampa Ave"), ("PROJ_CTY", PropVal.s "Craig"), ("PROJ_ST", PropVal.s "CO"), ("N_UNITS", PropVal.n (jd 28 0)), ("LI_UNITS", PropVal.n (jd 28 0)), ("YR_PIS", PropVal.n (jd 2016 0)), ("CREDIT", PropVal.s "9%"), ("QCT", PropVal.b false), ("DDA", PropVal.b false), ("CNTY_NAME", PropVal.s "Moffat")] },
  { geometry := some { gtype := "Point", coordinates := Coords.arr [jn (-1078762) 4, jn 384783 4] },
    properties := [("PROJECT", PropVal.s "Montrose Family Flats"), ("PROJ_ADD", PropVal.s "1500 E Main St"), ("PROJ_CTY", PropVal.s "Montrose"), ("PROJ_ST", PropVal.s "CO"), ("N_UNITS", PropVal.n (jd 56 0)), ("LI_UNITS", PropVal.n (jd 56 0)), ("YR_PIS", PropVal.n (jd 2019 0)), ("CREDIT", PropVal.s "9%"), ("QCT", PropVal.b false), ("DDA", PropVal.b false), ("CNTY_NAME", PropVal.s "Montrose")] },
  { geometry := some { gtype := "Point", coordinates := Coords.arr [jn (-1078625) 4, jn 387415 4] },
    properties := [("PROJECT", PropVal.s "Delta Commons"), ("PROJ_ADD", PropVal.s "261 Meeker St"), ("PROJ_CTY", PropVal.s "Delta"), ("PROJ_ST", PropVal.s "CO"), ("N_UNITS", PropVal.n (jd 40 0)), ("LI_UNITS", PropVal.n (jd 40 0)), ("YR_PIS", PropVal.n (jd 2017 0)), ("CREDIT", PropVal.s "9%"), ("QCT", PropVal.b false), ("DDA", PropVal.b false), ("CNTY_NAME", PropVal.s "Delta")] },
  { geometry := some { gtype := "Point", coordinates := Coords.arr [jn (-1069245) 4, jn 385458 4] },
    properties := [("PROJECT", PropVal.s "Gunnison Workforce Housing"), ("PROJ_ADD", PropVal.s "200 N Boulevard St"), ("PROJ_CTY", PropVal.s "Gunnison"), ("PROJ_ST", PropVal.s "CO"), ("N_UNITS", PropVal.n (jd 32 0)), ("LI_UNITS", PropVal.n (jd 32 0)), ("YR_PIS", PropVal.n (jd 2022 0)), ("CREDIT", PropVal.s "9%"), ("QCT", PropVal.b false), ("DDA", PropVal.b false), ("CNTY_NAME", PropVal.s "Gunnison")] },
  { geometry := some { gtype := "Point", coordinates := Coords.arr [jn (-1052422) 4, jn 384408 4] },
    properties := [("PROJECT", PropVal.s "Canon City Senior Village"), ("PROJ_ADD", PropVal.s "712 Main St"), ("PROJ_CTY", PropVal.s "Cañon City"), ("PROJ_ST", PropVal.s "CO"), ("N_UNITS", PropVal.n (jd 48 0)), ("LI_UNITS", PropVal.n (jd 48 0)), ("YR_PIS", PropVal.n (jd 2018 0)), ("CREDIT", PropVal.s "9%"), ("QCT", PropVal.b true), ("DDA", PropVal.b false), ("CNTY_NAME", PropVal.s "Fremont")] },
  { geometry := some { gtype := "Point", coordinates := Coords.arr [jn (-1058697) 4, jn 374694 4] },
    properties := [("PROJECT", PropVal.s "Alamosa Gardens"), ("PROJ_ADD", PropVal.s "301 State Ave"), ("PROJ_CTY", PropVal.s "Alamosa"), ("PROJ_ST", PropVal.s "CO"), ("N_UNITS", PropVal.n (jd 38 0)), ("LI_UNITS", PropVal.n (jd 38 0)), ("YR_PIS", PropVal.n (jd 2015 0)), ("CREDIT", PropVal.s "9%"), ("QCT", PropVal.b true), ("DDA", PropVal.b false), ("CNTY_NAME", PropVal.s "Alamosa")] },
  { geometry := some { gtype := "Point", coordinates := Coords.arr [jn (-1078801) 4, jn 372753 4] },
    properties := [("PROJECT", PropVal.s "Durango Commons"), ("PROJ_ADD", PropVal.s "1200 Camino Del Rio"), ("PROJ_CTY", PropVal.s "Durango"), ("PROJ_ST", PropVal.s "CO"), ("N_UNITS", PropVal.n (jd 62 0)), ("LI_UNITS", PropVal.n (jd 62 0)), ("YR_PIS", PropVal.n (jd 2021 0)), ("CREDIT", PropVal.s "9%"), ("QCT", PropVal.b false), ("DDA", PropVal.b true), ("CNTY_NAME", PropVal.s "La Plata")] },
  { geometry := some { gtype := "Point", coordinates := Coords.arr [jn (-1085847) 4, jn 373489 4] },
    properties := [("PROJECT", PropVal.s "Cortez Affordable Housing"), ("PROJ_ADD", PropVal.s "300 N Chestnut St"), ("PROJ_CTY", PropVal.s "Cortez"), ("PROJ_ST", PropVal.s "CO"), ("N_UNITS", PropVal.n (jd 42 0)), ("LI_UNITS", PropVal.n (jd 42 0)), ("YR_PIS", PropVal.n (jd 2018 0)), ("CREDIT", PropVal.s "9%"), ("QCT", PropVal.b false), ("DDA", PropVal.b false), ("CNTY_NAME", PropVal.s "Montezuma")] },
  { geometry := some { gtype := "Point", coordinates := Coords.arr [jn (-1050178) 4, jn 396462 4] },
    properties := [("PROJECT", PropVal.s "Englewood Seniors"), ("PROJ_ADD", PropVal.s "3611 S Broadway"), ("PROJ_CTY", PropVal.s "Englewood"), ("PROJ_ST", PropVal.s "CO"), ("N_UNITS", PropVal.n (jd 58 0)), ("LI_UNITS", PropVal.n (jd 58 0)), ("YR_PIS", PropVal.n (jd 2016 0)), ("CREDIT", PropVal.s "9%"), ("QCT", PropVal.b true), ("DDA", PropVal.b false), ("CNTY_NAME", PropVal.s "Arapahoe")] },
  { geometry := some { gtype := "Point", coordinates := Coords.arr [jn (-1049671) 4, jn 396298 4] },
    properties := [("PROJECT", PropVal.s "Centennial Crossings"), ("PROJ_ADD", PropVal.s "6900 S York St"), ("PROJ_CTY", PropVal.s "Centennial"), ("PROJ_ST", PropVal.s "CO"), ("N_UNITS", PropVal.n (jd 80 0)), ("LI_UNITS", PropVal.n (jd 80 0)), ("YR_PIS", PropVal.n (jd 2020 0)), ("CREDIT", PropVal.s "4%"), ("QCT", PropVal.b false), ("DDA", PropVal.b true), ("CNTY_NAME", PropVal.s "Arapahoe")] },
  { geometry := some { gtype := "Point", coordinates := Coords.arr [jn (-10499) 2, jn 395911 4] },
    properties := [("PROJECT", PropVal.s "Littleton Family Homes"), ("PROJ_ADD", PropVal.s "2500 W Main St"), ("PROJ_CTY", PropVal.s "Littleton"), ("PROJ_ST", PropVal.s "CO"), ("N_UNITS", PropVal.n (jd 66 0)), ("LI_UNITS", PropVal.n (jd 66 0)), ("YR_PIS", PropVal.n (jd 2018 0)), ("CREDIT", PropVal.s "9%"), ("QCT", PropVal.b false), ("DDA", PropVal.b true), ("CNTY_NAME", PropVal.s "Arapahoe")] },
  { geometry := some { gtype := "Point", coordinates := Coords.arr [jn (-1049611) 4, jn 39905 3] },
    properties := [("PROJECT", PropVal.s "Northglenn Apartments"), ("PROJ_ADD", PropVal.s "10500 Huron St"), ("PROJ_CTY", PropVal.s "Northglenn"), ("PROJ_ST", PropVal.s "CO"), ("N_UNITS", PropVal.n (jd 96 0)), ("LI_UNITS", PropVal.n (jd 96 0)), ("YR_PIS", PropVal.n (jd 2021 0)), ("CREDIT", PropVal.s "4%"), ("QCT", PropVal.b false), ("DDA", PropVal.b true), ("CNTY_NAME", PropVal.s "Adams")] },
  { geometry := some { gtype := "Point", coordinates := Coords.arr [jn (-1050198) 4, jn 3981 2] },
    properties := [("PROJECT", PropVal.s "Federal Heights Housing"), ("PROJ_ADD", PropVal.s "2399 W 84th Ave"), ("PROJ_CTY", PropVal.s "Federal Heights"), ("PROJ_ST", PropVal.s "CO"), ("N_UNITS", PropVal.n (jd 72 0)), ("LI_UNITS", PropVal.n (jd 72 0)), ("YR_PIS", PropVal.n (jd 2019 0)), ("CREDIT", PropVal.s "9%"), ("QCT", PropVal.b true), ("DDA", PropVal.b false), ("CNTY_NAME", PropVal.s "Adams")] },
  { geometry := some { gtype := "Point", coordinates := Coords.arr [jn (-1038022) 4, jn 401844 4] },
    properties := [("PROJECT", PropVal.s "Morgan County Homes"), ("PROJ_ADD", PropVal.s "300 W Main St"), ("PROJ_CTY", PropVal.s "Fort Morgan"), ("PROJ_ST", PropVal.s "CO"), ("N_UNITS", PropVal.n (jd 36 0)), ("LI_UNITS", PropVal.n (jd 36 0)), ("YR_PIS", PropVal.n (jd 2018 0)), ("CREDIT", PropVal.s "9%"), ("QCT", PropVal.b true), ("DDA", PropVal.b false), ("CNTY_NAME", PropVal.s "Morgan")] },
  { geometry := some { gtype := "Point", coordinates := Coords.arr [jn (-1026185) 4, jn 401675 4] },
    properties := [("PROJECT", PropVal.s "Sterling Housing"), ("PROJ_ADD", PropVal.s "330 N 3rd St"), ("PROJ_CTY", PropVal.s "Sterling"), ("PROJ_ST", PropVal.s "CO"), ("N_UNITS", PropVal.n (jd 30 0)), ("LI_UNITS", PropVal.n (jd 30 0)), ("YR_PIS", PropVal.n (jd 2019 0)), ("CREDIT", PropVal.s "9%"), ("QCT", PropVal.b true), ("DDA", PropVal.b false), ("CNTY_NAME", PropVal.s "Logan")] },
  { geometry := some { gtype := "Point", coordinates := Coords.arr [jn (-1035536) 4, jn 373536 4] },
    properties := [("PROJECT", PropVal.s "Trinidad Senior Homes"), ("PROJ_ADD", PropVal.s "301 E Main St"), ("PROJ_CTY", PropVal.s "Trinidad"), ("PROJ_ST", PropVal.s "CO"), ("N_UNITS", PropVal.n (jd 30 0)), ("LI_UNITS", PropVal.n (jd 30 0)), ("YR_PIS", PropVal.n (jd 2016 0)), ("CREDIT", PropVal.s "9%"), ("QCT", PropVal.b true), ("DDA", PropVal.b false), ("CNTY_NAME", PropVal.s "Las Animas")] },
  { geometry := some { gtype := "Point", coordinates := Coords.arr [jn (-1075017) 4, jn 379472 4] },
    properties := [("PROJECT", PropVal.s "Telluride Workforce Apts"), ("PROJ_ADD", PropVal.s "500 W Colorado Ave"), ("PROJ_CTY", PropVal.s "Telluride"), ("PROJ_ST", PropVal.s "CO"), ("N_UNITS", PropVal.n (jd 28 0)), ("LI_UNITS", PropVal.n (jd 28 0)), ("YR_PIS", PropVal.n (jd 2023 0)), ("CREDIT", PropVal.s "9%"), ("QCT", PropVal.b false), ("DDA", PropVal.b true), ("CNTY_NAME", PropVal.s "San Miguel")] },
  { geometry := some { gtype := "Point", coordinates := Coords.arr [jn (-1068233) 4, jn 391839 4] },
    properties := [("PROJECT", PropVal.s "Basalt Workforce Village"), ("PROJ_ADD", PropVal.s "100 Midland Ave"), ("PROJ_CTY", PropVal.s "Basalt"), ("PROJ_ST", PropVal.s "CO"), ("N_UNITS", PropVal.n (jd 40 0)), ("LI_UNITS", PropVal.n (jd 40 0)), ("YR_PIS", PropVal.n (jd 2023 0)), ("CREDIT", PropVal.s "9%"), ("QCT", PropVal.b false), ("DDA", PropVal.b true), ("CNTY_NAME", PropVal.s "Eagle")] },
  { geometry := some { gtype := "Point", coordinates := Coords.arr [jn (-1063203) 4, jn 39513 3] },
    properties := [("PROJECT", PropVal.s "Silverthorne Commons"), ("PROJ_ADD", PropVal.s "400 Blue River Pkwy"), ("PROJ_CTY", PropVal.s "Silverthorne"), ("PROJ_ST", PropVal.s "CO"), ("N_UNITS", PropVal.n (jd 35 0)), ("LI_UNITS", PropVal.n (jd 35 0)), ("YR_PIS", PropVal.n (jd 2022 0)), ("CREDIT", PropVal.s "9%"), ("QCT", PropVal.b false), ("DDA", PropVal.b true), ("CNTY_NAME", PropVal.s "Summit")] },
  { geometry := some { gtype := "Point", coordinates := Coords.arr [jn (-1056867) 4, jn 403958 4] },
    properties := [("PROJECT", PropVal.s "Estes Park Workforce"), ("PROJ_ADD", PropVal.s "175 Stanley Ave"), ("PROJ_CTY", PropVal.s "Estes Park"), ("PROJ_ST", PropVal.s "CO"), ("N_UNITS", PropVal.n (jd 30 0)), ("LI_UNITS", PropVal.n (jd 30 0)), ("YR_PIS", PropVal.n (jd 2023 0)), ("CREDIT", PropVal.s "9%"), ("QCT", PropVal.b false), ("DDA", PropVal.b true), ("CNTY_NAME", PropVal.s "Larimer")] },
  { geometry := some { gtype := "Point", coordinates := Coords.arr [jn (-1048914) 4, jn 405256 4] },
    properties := [("PROJECT", PropVal.s "Windsor Senior Villas"), ("PROJ_ADD", PropVal.s "1600 Main St"), ("PROJ_CTY", PropVal.s "Windsor"), ("PROJ_ST", PropVal.s "CO"), ("N_UNITS", PropVal.n (jd 48 0)), ("LI_UNITS", PropVal.n (jd 48 0)), ("YR_PIS", PropVal.n (jd 2022 0)), ("CREDIT", PropVal.s "9%"), ("QCT", PropVal.b false), ("DDA", PropVal.b true), ("CNTY_NAME", PropVal.s "Weld")] },
  { geometry := some { gtype := "Point", coordinates := Coords.arr [jn (-1046897) 4, jn 403736 4] },
    properties := [("PROJECT", PropVal.s "Greeley North Commons"), ("PROJ_ADD", PropVal.s "2200 35th Ave"), ("PROJ_CTY", PropVal.s "Greeley"), ("PROJ_ST", PropVal.s "CO"), ("N_UNITS", PropVal.n (jd 72 0)), ("LI_UNITS", PropVal.n (jd 72 0)), ("YR_PIS", PropVal.n (jd 2020 0)), ("CREDIT", PropVal.s "9%"), ("QCT", PropVal.b true), ("DDA", PropVal.b false), ("CNTY_NAME", PropVal.s "Weld")] },
  { geometry := some { gtype := "Point", coordinates := Coords.arr [jn (-1058697) 4, jn 374694 4] },
    properties := [("PROJECT", PropVal.s "Monte Vista Senior Homes"), ("PROJ_ADD", PropVal.s "500 Adams St"), ("PROJ_CTY", PropVal.s "Monte Vista"), ("PROJ_ST", PropVal.s "CO"), ("N_UNITS", PropVal.n (jd 30 0)), ("LI_UNITS", PropVal.n (jd 30 0)), ("YR_PIS", PropVal.n (jd 2019 0)), ("CREDIT", PropVal.s "9%"), ("QCT", PropVal.b true), ("DDA", PropVal.b false), ("CNTY_NAME", PropVal.s "Rio Grande")] },
  { geometry := some { gtype := "Point", coordinates := Coords.arr [jn (-1080736) 4, jn 371523 4] },
    properties := [("PROJECT", PropVal.s "Towaoc Tribal Housing"), ("PROJ_ADD", PropVal.s "Ute Mountain Ute Area"), ("PROJ_CTY", PropVal.s "Towaoc"), ("PROJ_ST", PropVal.s "CO"), ("N_UNITS", PropVal.n (jd 34 0)), ("LI_UNITS", PropVal.n (jd 34 0)), ("YR_PIS", PropVal.n (jd 2020 0)), ("CREDIT", PropVal.s "9%"), ("QCT", PropVal.b true), ("DDA", PropVal.b false), ("CNTY_NAME", PropVal.s "Montezuma")] },
  { geometry := some { gtype := "Point", coordinates := Coords.arr [jn (-1041614) 4, jn 371895 4] },
    properties := [("PROJECT", PropVal.s "Walsenburg Commons"), ("PROJ_ADD", PropVal.s "600 W 7th St"), ("PROJ_CTY", PropVal.s "Walsenburg"), ("PROJ_ST", PropVal.s "CO"), ("N_UNITS", PropVal.n (jd 20 0)), ("LI_UNITS", PropVal.n (jd 20 0)), ("YR_PIS", PropVal.n (jd 2014 0)), ("CREDIT", PropVal.s "9%"), ("QCT", PropVal.b true), ("DDA", PropVal.b false), ("CNTY_NAME", PropVal.s "Huerfano")] },
  { geometry := some { gtype := "Point", coordinates := Coords.arr [jn (-1053322) 4, jn 374781 4] },
    properties := [("PROJECT", PropVal.s "Conejos County Housing"), ("PROJ_ADD", PropVal.s "101 Main Ave"), ("PROJ_CTY", PropVal.s "La Jara"), ("PROJ_ST", PropVal.s "CO"), ("N_UNITS", PropVal.n (jd 10 0)), ("LI_UNITS", PropVal.n (jd 10 0)), ("YR_PIS", PropVal.n (jd 2018 0)), ("CREDIT", PropVal.s "9%"), ("QCT", PropVal.b true), ("DDA", PropVal.b false), ("CNTY_NAME", PropVal.s "Conejos")] },
  { geometry := some { gtype := "Point", coordinates := Coords.arr [jn (-1047629) 4, jn 386785 4] },
    properties := [("PROJECT", PropVal.s "Peyton Rural Homes"), ("PROJ_ADD", PropVal.s "County Rd 21"), ("PROJ_CTY", PropVal.s "Peyton"), ("PROJ_ST", PropVal.s "CO"), ("N_UNITS", PropVal.n (jd 24 0)), ("LI_UNITS", PropVal.n (jd 24 0)), ("YR_PIS", PropVal.n (jd 2017 0)), ("CREDIT", PropVal.s "9%"), ("QCT", PropVal.b false), ("DDA", PropVal.b false), ("CNTY_NAME", PropVal.s "El Paso")] },
  { geometry := some { gtype := "Point", coordinates := Coords.arr [jn (-1054836) 4, jn 376778 4] },
    properties := [("PROJECT", PropVal.s "La Veta Housing"), ("PROJ_ADD", PropVal.s "150 Rosita Ave"), ("PROJ_CTY", PropVal.s "La Veta"), ("PROJ_ST", PropVal.s "CO"), ("N_UNITS", PropVal.n (jd 14 0)), ("LI_UNITS", PropVal.n (jd 14 0)), ("YR_PIS", PropVal.n (jd 2018 0)), ("CREDIT", PropVal.s "9%"), ("QCT", PropVal.b false), ("DDA", PropVal.b false), ("CNTY_NAME", PropVal.s "Huerfano")] },
  { geometry := some { gtype := "Point", coordinates := Coords.arr [jn (-1032158) 4, jn 39558 3] },
    properties := [("PROJECT", PropVal.s "Limon Gateway Apts"), ("PROJ_ADD", PropVal.s "170 E 1st St"), ("PROJ_CTY", PropVal.s "Limon"), ("PROJ_ST", PropVal.s "CO"), ("N_UNITS", PropVal.n (jd 22 0)), ("LI_UNITS", PropVal.n (jd 22 0)), ("YR_PIS", PropVal.n (jd 2016 0)), ("CREDIT", PropVal.s "9%"), ("QCT", PropVal.b false), ("DDA", PropVal.b false), ("CNTY_NAME", PropVal.s "Lincoln")] },
  { geometry := some { gtype := "Point", coordinates := Coords.arr [jn (-1021231) 4, jn 400133 4] },
    properties := [("PROJECT", PropVal.s "Yuma Senior Living"), ("PROJ_ADD", PropVal.s "600 S Main St"), ("PROJ_CTY", PropVal.s "Yuma"), ("PROJ_ST", PropVal.s "CO"), ("N_UNITS", PropVal.n (jd 20 0)), ("LI_UNITS", PropVal.n (jd 20 0)), ("YR_PIS", PropVal.n (jd 2017 0)), ("CREDIT", PropVal.s "9%"), ("QCT", PropVal.b false), ("DDA", PropVal.b false), ("CNTY_NAME", PropVal.s "Yuma")] },
  { geometry := some { gtype := "Point", coordinates := Coords.arr [jn (-1026024) 4, jn 380961 4] },
    properties := [("PROJECT", PropVal.s "Las Animas Apts"), ("PROJ_ADD", PropVal.s "505 Bent Ave"), ("PROJ_CTY", PropVal.s "Las Animas"), ("PROJ_ST", PropVal.s "CO"), ("N_UNITS", PropVal.n (jd 18 0)), ("LI_UNITS", PropVal.n (jd 18 0)), ("YR_PIS", PropVal.n (jd 2015 0)), ("CREDIT", PropVal.s "9%"), ("QCT", PropVal.b true), ("DDA", PropVal.b false), ("CNTY_NAME", PropVal.s "Bent")] },
  { geometry := some { gtype := "Point", coordinates := Coords.arr [jn (-1045916) 4, jn 384036 4] },
    properties := [("PROJECT", PropVal.s "Pueblo West Seniors"), ("PROJ_ADD", PropVal.s "900 Doyle Blvd"), ("PROJ_CTY", PropVal.s "Pueblo West"), ("PROJ_ST", PropVal.s "CO"), ("N_UNITS", PropVal.n (jd 44 0)), ("LI_UNITS", PropVal.n (jd 44 0)), ("YR_PIS", PropVal.n (jd 2022 0)), ("CREDIT", PropVal.s "9%"), ("QCT", PropVal.b false), ("DDA", PropVal.b false), ("CNTY_NAME", PropVal.s "Pueblo")] },
  { geometry := some { gtype := "Point", coordinates := Coords.arr [jn (-1059764) 4, jn 39234 3] },
    properties := [("PROJECT", PropVal.s "South Park Housing"), ("PROJ_ADD", PropVal.s "200 Main St"), ("PROJ_CTY", PropVal.s "Fairplay"), ("PROJ_ST", PropVal.s "CO"), ("N_UNITS", PropVal.n (jd 16 0)), ("LI_UNITS", PropVal.n (jd 16 0)), ("YR_PIS", PropVal.n (jd 2020 0)), ("CREDIT", PropVal.s "9%"), ("QCT", PropVal.b false), ("DDA", PropVal.b false), ("CNTY_NAME", PropVal.s "Park")] },
  { geometry := some { gtype := "Point", coordinates := Coords.arr [jn (-1049703) 4, jn 402586 4] },
    properties := [("PROJECT", PropVal.s "Dacono Valley Apts"), ("PROJ_ADD", PropVal.s "512 County Rd"), ("PROJ_CTY", PropVal.s "Dacono"), ("PROJ_ST", PropVal.s "CO"), ("N_UNITS", PropVal.n (jd 54 0)), ("LI_UNITS", PropVal.n (jd 54 0)), ("YR_PIS", PropVal.n (jd 2020 0)), ("CREDIT", PropVal.s "9%"), ("QCT", PropVal.b false), ("DDA", PropVal.b false), ("CNTY_NAME", PropVal.s "Weld")] },
  { geometry := some { gtype := "Point", coordinates := Coords.arr [jn (-1050019) 4, jn 39987 3] },
    properties := [("PROJECT", PropVal.s "Thornton East Village"), ("PROJ_ADD", PropVal.s "12200 Colorado Blvd"), ("PROJ_CTY", PropVal.s "Thornton"), ("PROJ_ST", PropVal.s "CO"), ("N_UNITS", PropVal.n (jd 82 0)), ("LI_UNITS", PropVal.n (jd 82 0)), ("YR_PIS", PropVal.n (jd 2021 0)), ("CREDIT", PropVal.s "4%"), ("QCT", PropVal.b false), ("DDA", PropVal.b true), ("CNTY_NAME", PropVal.s "Adams")] },
  { geometry := some { gtype := "Point", coordinates := Coords.arr [jn (-1049501) 4, jn 3972 2] },
    properties := [("PROJECT", PropVal.s "Capitol Hill Commons"), ("PROJ_ADD", PropVal.s "1400 E Colfax Ave"), ("PROJ_CTY", PropVal.s "Denver"), ("PROJ_ST", PropVal.s "CO"), ("N_UNITS", PropVal.n (jd 66 0)), ("LI_UNITS", PropVal.n (jd 66 0)), ("YR_PIS", PropVal.n (jd 2022 0)), ("CREDIT", PropVal.s "9%"), ("QCT", PropVal.b true), ("DDA", PropVal.b false), ("CNTY_NAME", PropVal.s "Denver")] }
] }

/-- The embedded fallback dataset `FALLBACK_QCT` of co-lihtc-map.js, transcribed feature by feature. -/
def FALLBACK_QCT : FC := { type := "FeatureCollection", features := [
  { geometry := some { gtype := "Polygon", coordinates := Coords.arr [Coords.arr [Coords.arr [jn (-105) 0, jn 39772 3], Coords.arr [jn (-10494) 2, jn 39772 3], Coords.arr [jn (-10494) 2, jn 3979 2], Coords.arr [jn (-105) 0, jn 3979 2], Coords.arr [jn (-105) 0, jn 39772 3]]] },
    properties := [("NAME", PropVal.s "Denver-Globeville QCT"), ("GEOID", PropVal.n (jd 8031006700 0)), ("STATE", PropVal.s "CO")] },
  { geometry := some { gtype := "Polygon", coordinates := Coords.arr [Coords.arr [Coords.arr [jn (-104982) 3, jn 39745 3], Coords.arr [jn (-10494) 2, jn 39745 3], Coords.arr [jn (-10494) 2, jn 39768 3], Coords.arr [jn (-104982) 3, jn 39768 3], Coords.arr [jn (-104982) 3, jn 39745 3]]] },
    properties := [("NAME", PropVal.s "Denver-Five Points QCT"), ("GEOID", PropVal.n (jd 8031007700 0)), ("STATE", PropVal.s "CO")] },
  { geometry := some { gtype := "Polygon", coordinates := Coords.arr [Coords.arr [Coords.arr [jn (-10501) 2, jn 3972 2], Coords.arr [jn (-104975) 3, jn 3972 2], Coords.arr [jn (-104975) 3, jn 3974 2], Coords.arr [jn (-10501) 2, jn 3974 2], Coords.arr [jn (-10501) 2, jn 3972 2]]] },
    properties := [("NAME", PropVal.s "Denver-Sun Valley QCT"), ("GEOID", PropVal.n (jd 8031006800 0)), ("STATE", PropVal.s "CO")] },
  { geometry := some { gtype := "Polygon", coordinates := Coords.arr [Coords.arr [Coords.arr [jn (-104955) 3, jn 3976 2], Coords.arr [jn (-10491) 2, jn 3976 2], Coords.arr [jn (-10491) 2, jn 3981 2], Coords.arr [jn (-104955) 3, jn 3981 2], Coords.arr [jn (-104955) 3, jn 3976 2]]] },
    properties := [("NAME", PropVal.s "Denver-Montbello QCT"), ("GEOID", PropVal.n (jd 8031004601 0)), ("STATE", PropVal.s "CO")] },
  { geometry := some { gtype := "Polygon", coordinates := Coords.arr [Coords.arr [Coords.arr [jn (-10505) 2, jn 3968 2], Coords.arr [jn (-104995) 3, jn 3968 2], Coords.arr [jn (-104995) 3, jn 39718 3], Coords.arr [jn (-10505) 2, jn 39718 3], Coords.arr [jn (-10505) 2, jn 3968 2]]] },
    properties := [("NAME", PropVal.s "Denver-Westwood QCT"), ("GEOID", PropVal.n (jd 8031007400 0)), ("STATE", PropVal.s "CO")] },
  { geometry := some { gtype := "Polygon", coordinates := Coords.arr [Coords.arr [Coords.arr [jn (-10503) 2, jn 3973 2], Coords.arr [jn (-104995) 3, jn 3973 2], Coords.arr [jn (-104995) 3, jn 39755 3], Coords.arr [jn (-10503) 2, jn 39755 3], Coords.arr [jn (-10503) 2, jn 3973 2]]] },
    properties := [("NAME", PropVal.s "Denver-Villa Park QCT"), ("GEOID", PropVal.n (jd 8031008200 0)), ("STATE", PropVal.s "CO")] },
  { geometry := some { gtype := "Polygon", coordinates := Coords.arr [Coords.arr [Coords.arr [jn (-105043) 3, jn 397 1], Coords.arr [jn (-105) 0, jn 397 1], Coords.arr [jn (-105) 0, jn 39725 3], Coords.arr [jn (-105043) 3, jn 39725 3], Coords.arr [jn (-105043) 3, jn 397 1]]] },
    properties := [("NAME", PropVal.s "Denver-Barnum QCT"), ("GEOID", PropVal.n (jd 8031008500 0)), ("STATE", PropVal.s "CO")] },
  { geometry := some { gtype := "Polygon", coordinates := Coords.arr [Coords.arr [Coords.arr [jn (-104966) 3, jn 3976 2], Coords.arr [jn (-10493) 2, jn 3976 2], Coords.arr [jn (-10493) 2, jn 39785 3], Coords.arr [jn (-104966) 3, jn 39785 3], Coords.arr [jn (-104966) 3, jn 3976 2]]] },
    properties := [("NAME", PropVal.s "Denver-Swansea QCT"), ("GEOID", PropVal.n (jd 8031009100 0)), ("STATE", PropVal.s "CO")] },
  { geometry := some { gtype := "Polygon", coordinates := Coords.arr [Coords.arr [Coords.arr [jn (-104975) 3, jn 3973 2], Coords.arr [jn (-10494) 2, jn 3973 2], Coords.arr [jn (-10494) 2, jn 39748 3], Coords.arr [jn (-104975) 3, jn 39748 3], Coords.arr [jn (-104975) 3, jn 3973 2]]] },
    properties := [("NAME", PropVal.s "Denver-Capitol Hill QCT"), ("GEOID", PropVal.n (jd 8031003200 0)), ("STATE", PropVal.s "CO")] },
  { geometry := some { gtype := "Polygon", coordinates := Coords.arr [Coords.arr [Coords.arr [jn (-1049) 1, jn 3972 2], Coords.arr [jn (-10484) 2, jn 3972 2], Coords.arr [jn (-10484) 2, jn 3975 2], Coords.arr [jn (-1049) 1, jn 3975 2], Coords.arr [jn (-1049) 1, jn 3972 2]]] },
    properties := [("NAME", PropVal.s "Aurora-Colfax QCT"), ("GEOID", PropVal.n (jd 8005011020 0)), ("STATE", PropVal.s "CO")] },
  { geometry := some { gtype := "Polygon", coordinates := Coords.arr [Coords.arr [Coords.arr [jn (-10484) 2, jn 39686 3], Coords.arr [jn (-10478) 2, jn 39686 3], Coords.arr [jn (-10478) 2, jn 3971 2], Coords.arr [jn (-10484) 2, jn 3971 2], Coords.arr [jn (-10484) 2, jn 39686 3]]] },
    properties := [("NAME", PropVal.s "Aurora-East QCT"), ("GEOID", PropVal.n (jd 8005011800 0)), ("STATE", PropVal.s "CO")] },
  { geometry := some { gtype := "Polygon", coordinates := Coords.arr [Coords.arr [Coords.arr [jn (-10504) 2, jn 39843 3], Coords.arr [jn (-10499) 2, jn 39843 3], Coords.arr [jn (-10499) 2, jn 39868 3], Coords.arr [jn (-10504) 2, jn 39868 3], Coords.arr [jn (-10504) 2, jn 39843 3]]] },
    properties := [("NAME", PropVal.s "Westminster Federal QCT"), ("GEOID", PropVal.n (jd 8001012900 0)), ("STATE", PropVal.s "CO")] },
  { geometry := some { gtype := "Polygon", coordinates := Coords.arr [Coords.arr [Coords.arr [jn (-104851) 3, jn 3882 2], Coords.arr [jn (-1048) 1, jn 3882 2], Coords.arr [jn (-1048) 1, jn 38858 3], Coords.arr [jn (-104851) 3, jn 38858 3], Coords.arr [jn (-104851) 3, jn 3882 2]]] },
    properties := [("NAME", PropVal.s "Colorado Springs-Downtown QCT"), ("GEOID", PropVal.n (jd 8041003200 0)), ("STATE", PropVal.s "CO")] },
  { geometry := some { gtype := "Polygon", coordinates := Coords.arr [Coords.arr [Coords.arr [jn (-1048) 1, jn 3882 2], Coords.arr [jn (-10473) 2, jn 3882 2], Coords.arr [jn (-10473) 2, jn 3886 2], Coords.arr [jn (-1048) 1, jn 3886 2], Coords.arr [jn (-1048) 1, jn 3882 2]]] },
    properties := [("NAME", PropVal.s "Colorado Springs-East QCT"), ("GEOID", PropVal.n (jd 8041004100 0)), ("STATE", PropVal.s "CO")] },
  { geometry := some { gtype := "Polygon", coordinates := Coords.arr [Coords.arr [Coords.arr [jn (-104635) 3, jn 38238 3], Coords.arr [jn (-10458) 2, jn 38238 3], Coords.arr [jn (-10458) 2, jn 38278 3], Coords.arr [jn (-104635) 3, jn 38278 3], Coords.arr [jn (-104635) 3, jn 38238 3]]] },
    properties := [("NAME", PropVal.s "Pueblo-Downtown QCT"), ("GEOID", PropVal.n (jd 8101000300 0)), ("STATE", PropVal.s "CO")] },
  { geometry := some { gtype := "Polygon", coordinates := Coords.arr [Coords.arr [Coords.arr [jn (-10464) 2, jn 38278 3], Coords.arr [jn (-104575) 3, jn 38278 3], Coords.arr [jn (-104575) 3, jn 3831 2], Coords.arr [jn (-10464) 2, jn 3831 2], Coords.arr [jn (-10464) 2, jn 38278 3]]] },
    properties := [("NAME", PropVal.s "Pueblo-North QCT"), ("GEOID", PropVal.n (jd 8101000400 0)), ("STATE", PropVal.s "CO")] },
  { geometry := some { gtype := "Polygon", coordinates := Coords.arr [Coords.arr [Coords.arr [jn (-10473) 2, jn 40404 3], Coords.arr [jn (-10467) 2, jn 40404 3], Coords.arr [jn (-10467) 2, jn 4044 2], Coords.arr [jn (-10473) 2, jn 4044 2], Coords.arr [jn (-10473) 2, jn 40404 3]]] },
    properties := [("NAME", PropVal.s "Greeley QCT"), ("GEOID", PropVal.n (jd 8123000500 0)), ("STATE", PropVal.s "CO")] },
  { geometry := some { gtype := "Polygon", coordinates := Coords.arr [Coords.arr [Coords.arr [jn (-10473) 2, jn 4038 2], Coords.arr [jn (-10468) 2, jn 4038 2], Coords.arr [jn (-10468) 2, jn 40404 3], Coords.arr [jn (-10473) 2, jn 40404 3], Coords.arr [jn (-10473) 2, jn 4038 2]]] },
    properties := [("NAME", PropVal.s "Evans QCT"), ("GEOID", PropVal.n (jd 8123000700 0)), ("STATE", PropVal.s "CO")] },
  { geometry := some { gtype := "Polygon", coordinates := Coords.arr [Coords.arr [Coords.arr [jn (-10512) 2, jn 40148 3], Coords.arr [jn (-10507) 2, jn 40148 3], Coords.arr [jn (-10507) 2, jn 40182 3], Coords.arr [jn (-10512) 2, jn 40182 3], Coords.arr [jn (-10512) 2, jn 40148 3]]] },
    properties := [("NAME", PropVal.s "Longmont East QCT"), ("GEOID", PropVal.n (jd 8013001900 0)), ("STATE", PropVal.s "CO")] },
  { geometry := some { gtype := "Polygon", coordinates := Coords.arr [Coords.arr [Coords.arr [jn (-10859) 2, jn 39048 3], Coords.arr [jn (-10853) 2, jn 39048 3], Coords.arr [jn (-10853) 2, jn 39085 3], Coords.arr [jn (-10859) 2, jn 39085 3], Coords.arr [jn (-10859) 2, jn 39048 3]]] },
    properties := [("NAME", PropVal.s "Grand Junction QCT"), ("GEOID", PropVal.n (jd 8077000200 0)), ("STATE", PropVal.s "CO")] },
  { geometry := some { gtype := "Polygon", coordinates := Coords.arr [Coords.arr [Coords.arr [jn (-10384) 2, jn 40244 3], Coords.arr [jn (-10378) 2, jn 40244 3], Coords.arr [jn (-10378) 2, jn 40272 3], Coords.arr [jn (-10384) 2, jn 40272 3], Coords.arr [jn (-10384) 2, jn 40244 3]]] },
    properties := [("NAME", PropVal.s "Fort Morgan QCT"), ("GEOID", PropVal.n (jd 8087000300 0)), ("STATE", PropVal.s "CO")] },
  { geometry := some { gtype := "Polygon", coordinates := Coords.arr [Coords.arr [Coords.arr [jn (-10325) 2, jn 40598 3], Coords.arr [jn (-103195) 3, jn 40598 3], Coords.arr [jn (-103195) 3, jn 40634 3], Coords.arr [jn (-10325) 2, jn 40634 3], Coords.arr [jn (-10325) 2, jn 40598 3]]] },
    properties := [("NAME", PropVal.s "Sterling QCT"), ("GEOID", PropVal.n (jd 8075001100 0)), ("STATE", PropVal.s "CO")] },
  { geometry := some { gtype := "Polygon", coordinates := Coords.arr [Coords.arr [Coords.arr [jn (-10591) 2, jn 37454 3], Coords.arr [jn (-105848) 3, jn 37454 3], Coords.arr [jn (-105848) 3, jn 3749 2], Coords.arr [jn (-10591) 2, jn 3749 2], Coords.arr [jn (-10591) 2, jn 37454 3]]] },
    properties := [("NAME", PropVal.s "Alamosa QCT"), ("GEOID", PropVal.n (jd 8003000600 0)), ("STATE", PropVal.s "CO")] },
  { geometry := some { gtype := "Polygon", coordinates := Coords.arr [Coords.arr [Coords.arr [jn (-10459) 2, jn 3716 2], Coords.arr [jn (-10452) 2, jn 3716 2], Coords.arr [jn (-10452) 2, jn 37192 3], Coords.arr [jn (-10459) 2, jn 37192 3], Coords.arr [jn (-10459) 2, jn 3716 2]]] },
    properties := [("NAME", PropVal.s "Trinidad QCT"), ("GEOID", PropVal.n (jd 8071000500 0)), ("STATE", PropVal.s "CO")] },
  { geometry := some { gtype := "Polygon", coordinates := Coords.arr [Coords.arr [Coords.arr [jn (-104805) 3, jn 3762 2], Coords.arr [jn (-10476) 2, jn 3762 2], Coords.arr [jn (-10476) 2, jn 37645 3], Coords.arr [jn (-104805) 3, jn 37645 3], Coords.arr [jn (-104805) 3, jn 3762 2]]] },
    properties := [("NAME", PropVal.s "Walsenburg QCT"), ("GEOID", PropVal.n (jd 8055000200 0)), ("STATE", PropVal.s "CO")] },
  { geometry := some { gtype := "Polygon", coordinates := Coords.arr [Coords.arr [Coords.arr [jn (-10526) 2, jn 38427 3], Coords.arr [jn (-1052) 1, jn 38427 3], Coords.arr [jn (-1052) 1, jn 38456 3], Coords.arr [jn (-10526) 2, jn 38456 3], Coords.arr [jn (-10526) 2, jn 38427 3]]] },
    properties := [("NAME", PropVal.s "Cañon City QCT"), ("GEOID", PropVal.n (jd 8043000500 0)), ("STATE", PropVal.s "CO")] },
  { geometry := some { gtype := "Polygon", coordinates := Coords.arr [Coords.arr [Coords.arr [jn (-10324) 2, jn 38058 3], Coords.arr [jn (-10318) 2, jn 38058 3], Coords.arr [jn (-10318) 2, jn 38082 3], Coords.arr [jn (-10324) 2, jn 38082 3], Coords.arr [jn (-10324) 2, jn 38058 3]]] },
    properties := [("NAME", PropVal.s "Las Animas QCT"), ("GEOID", PropVal.n (jd 8011000200 0)), ("STATE", PropVal.s "CO")] }
] }

/-- The embedded fallback dataset `FALLBACK_DDA` of co-lihtc-map.js, transcribed feature by feature. -/
def FALLBACK_DDA : FC := { type := "FeatureCollection", features := [
  { geometry := some { gtype := "Polygon", coordinates := Coords.arr [Coords.arr [Coords.arr [jn (-10515) 2, jn 3955 2], Coords.arr [jn (-10467) 2, jn 3955 2], Coords.arr [jn (-10467) 2, jn 3998 2], Coords.arr [jn (-10515) 2, jn 3998 2], Coords.arr [jn (-10515) 2, jn 3955 2]]] },
    properties := [("NAME", PropVal.s "Denver-Aurora Metro DDA"), ("DDATYPE", PropVal.s "Metropolitan"), ("STATE", PropVal.s "CO")] },
  { geometry := some { gtype := "Polygon", coordinates := Coords.arr [Coords.arr [Coords.arr [jn (-10535) 2, jn 3995 2], Coords.arr [jn (-10498) 2, jn 3995 2], Coords.arr [jn (-10498) 2, jn 4015 2], Coords.arr [jn (-10535) 2, jn 4015 2], Coords.arr [jn (-10535) 2, jn 3995 2]]] },
    properties := [("NAME", PropVal.s "Boulder-Broomfield DDA"), ("DDATYPE", PropVal.s "Metropolitan"), ("STATE", PropVal.s "CO")] },
  { geometry := some { gtype := "Polygon", coordinates := Coords.arr [Coords.arr [Coords.arr [jn (-1052) 1, jn 4052 2], Coords.arr [jn (-10498) 2, jn 4052 2], Coords.arr [jn (-10498) 2, jn 4066 2], Coords.arr [jn (-1052) 1, jn 4066 2], Coords.arr [jn (-1052) 1, jn 4052 2]]] },
    properties := [("NAME", PropVal.s "Fort Collins DDA"), ("DDATYPE", PropVal.s "Metropolitan"), ("STATE", PropVal.s "CO")] },
  { geometry := some { gtype := "Polygon", coordinates := Coords.arr [Coords.arr [Coords.arr [jn (-10718) 2, jn 3944 2], Coords.arr [jn (-10629) 2, jn 3944 2], Coords.arr [jn (-10629) 2, jn 3974 2], Coords.arr [jn (-10718) 2, jn 3974 2], Coords.arr [jn (-10718) 2, jn 3944 2]]] },
    properties := [("NAME", PropVal.s "Eagle County DDA"), ("DDATYPE", PropVal.s "High-Cost Non-Metropolitan"), ("STATE", PropVal.s "CO")] },
  { geometry := some { gtype := "Polygon", coordinates := Coords.arr [Coords.arr [Coords.arr [jn (-10638) 2, jn 3938 2], Coords.arr [jn (-10573) 2, jn 3938 2], Coords.arr [jn (-10573) 2, jn 3966 2], Coords.arr [jn (-10638) 2, jn 3966 2], Coords.arr [jn (-10638) 2, jn 3938 2]]] },
    properties := [("NAME", PropVal.s "Summit County DDA"), ("DDATYPE", PropVal.s "High-Cost Non-Metropolitan"), ("STATE", PropVal.s "CO")] },
  { geometry := some { gtype := "Polygon", coordinates := Coords.arr [Coords.arr [Coords.arr [jn (-10726) 2, jn 3912 2], Coords.arr [jn (-10668) 2, jn 3912 2], Coords.arr [jn (-10668) 2, jn 3938 2], Coords.arr [jn (-10726) 2, jn 3938 2], Coords.arr [jn (-10726) 2, jn 3912 2]]] },
    properties := [("NAME", PropVal.s "Pitkin County DDA (Aspen)"), ("DDATYPE", PropVal.s "High-Cost Non-Metropolitan"), ("STATE", PropVal.s "CO")] },
  { geometry := some { gtype := "Polygon", coordinates := Coords.arr [Coords.arr [Coords.arr [jn (-1082) 1, jn 3782 2], Coords.arr [jn (-10738) 2, jn 3782 2], Coords.arr [jn (-10738) 2, jn 3815 2], Coords.arr [jn (-1082) 1, jn 3815 2], Coords.arr [jn (-1082) 1, jn 3782 2]]] },
    properties := [("NAME", PropVal.s "San Miguel County DDA (Telluride)"), ("DDATYPE", PropVal.s "High-Cost Non-Metropolitan"), ("STATE", PropVal.s "CO")] },
  { geometry := some { gtype := "Polygon", coordinates := Coords.arr [Coords.arr [Coords.arr [jn (-10728) 2, jn 4025 2], Coords.arr [jn (-10646) 2, jn 4025 2], Coords.arr [jn (-10646) 2, jn 4074 2], Coords.arr [jn (-10728) 2, jn 4074 2], Coords.arr [jn (-10728) 2, jn 4025 2]]] },
    properties := [("NAME", PropVal.s "Routt County DDA (Steamboat)"), ("DDATYPE", PropVal.s "High-Cost Non-Metropolitan"), ("STATE", PropVal.s "CO")] },
  { geometry := some { gtype := "Polygon", coordinates := Coords.arr [Coords.arr [Coords.arr [jn (-1081) 1, jn 393 1], Coords.arr [jn (-10706) 2, jn 393 1], Coords.arr [jn (-10706) 2, jn 3975 2], Coords.arr [jn (-1081) 1, jn 3975 2], Coords.arr [jn (-1081) 1, jn 393 1]]] },
    properties := [("NAME", PropVal.s "Garfield County DDA"), ("DDATYPE", PropVal.s "Non-Metropolitan"), ("STATE", PropVal.s "CO")] },
  { geometry := some { gtype := "Polygon", coordinates := Coords.arr [Coords.arr [Coords.arr [jn (-10812) 2, jn 3706 2], Coords.arr [jn (-1073) 1, jn 3706 2], Coords.arr [jn (-1073) 1, jn 3758 2], Coords.arr [jn (-10812) 2, jn 3758 2], Coords.arr [jn (-10812) 2, jn 3706 2]]] },
    properties := [("NAME", PropVal.s "La Plata County DDA (Durango)"), ("DDATYPE", PropVal.s "Non-Metropolitan"), ("STATE", PropVal.s "CO")] }
] }

/-! ## The layer loaders and their embedded-fallback substitution -/

/-- `loadLIHTC` (co-lihtc-map.js:908-921), reduced to the collection it
hands to the renderer (`lihtcAll`): query HUD once; an empty result throws
`'Empty result from HUD'`, and the `catch` substitutes `FALLBACK_LIHTC`
verbatim (the paginated query itself never throws). -/
def loadLIHTC (server : Nat → FetchResult) : FC :=
  let gj := (arcgisQuery server).1
  if gj.features.isEmpty then FALLBACK_LIHTC else gj

/-- `ensureQCT` (co-lihtc-map.js:969-979), reduced to the collection it
hands to `makeOverlayLayer`: the fallback chain with Colorado filter
`STATEFP='08'`; on `'API exhausted'` the embedded `FALLBACK_QCT` is used
verbatim.  (The `qctLoaded` once-only guard is UI state, not modelled.) -/
def ensureQCT (server : String → Nat → FetchResult) : FC :=
  match (tryLoadFromAPI server "STATEFP='08'").1 with
  | Except.ok gj => gj
  | Except.error _ => FALLBACK_QCT

/-- `ensureDDA` (co-lihtc-map.js:981-991): as `ensureQCT`, with
`FALLBACK_DDA`. -/
def ensureDDA (server : String → Nat → FetchResult) : FC :=
  match (tryLoadFromAPI server "STATEFP='08'").1 with
  | Except.ok gj => gj
  | Except.error _ => FALLBACK_DDA

/-! ## Concrete pages, features and servers for the witnesses and
counterexamples -/

/-- A minimal feature standing for one returned record. -/
def pageFeature : Feature := { geometry := none, properties := [] }

/-- A point inside the Colorado box (integer coordinates near Denver). -/
def denverPt : Feature :=
  { geometry := some { gtype := "Point", coordinates := Coords.arr [jn (-105) 0, jn 39 0] },
    properties := [] }

/-- A point far outside the Colorado box. -/
def farEastPt : Feature :=
  { geometry := some { gtype := "Point", coordinates := Coords.arr [jn 100 0, jn 50 0] },
    properties := [] }

/-- A successful page response carrying `fs` and the truncation flag `etl`. -/
def okPage (fs : List Feature) (etl : Bool) : FetchResult :=
  FetchResult.ok { features? := some fs, exceededTransferLimit := etl,
                   propertiesExceededTransferLimit := false }

/-- A service holding exactly 2000 features: both full pages carry
`exceededTransferLimit: false`, offset 2000 is empty. -/
def twoFullPagesServer : Nat → FetchResult := fun off =>
  if off < 2000 then okPage (List.replicate 1000 pageFeature) false
  else okPage [] false

/-- A response with zero features but `exceededTransferLimit: true`. -/
def emptyExceededServer : Nat → FetchResult := fun _ => okPage [] true

/-- The spec's truncation scenario: offset 0 returns a full page flagged
`exceededTransferLimit: true`, every later offset returns 400 features with
no flag. -/
def truncScenarioServer : Nat → FetchResult := fun off =>
  if off = 0 then okPage (List.replicate 1000 pageFeature) true
  else okPage (List.replicate 400 pageFeature) false

/-- A service whose first page is full and flagged truncated, and whose
second page request fails. -/
def failsOnSecondPageServer : Nat → FetchResult := fun off =>
  if off = 0 then okPage (List.replicate 1000 pageFeature) true
  else FetchResult.err

/-- The failing service behind every filter of a fallback chain. -/
def failsOnSecondPageChain : String → Nat → FetchResult :=
  fun _ => failsOnSecondPageServer

/-- A misbehaving service: every offset returns a (short) non-empty page
flagged `exceededTransferLimit: true`, forever. -/
def relentlessServer : Nat → FetchResult := fun _ => okPage [pageFeature] true

/-- A service returning no features for any request. -/
def emptyServer : Nat → FetchResult := fun _ => okPage [] false

/-- A fallback chain in which every candidate returns no features. -/
def emptyChain : String → Nat → FetchResult := fun _ => emptyServer

/-- A chain whose first Colorado filter already yields one feature. -/
def firstFilterChain : String → Nat → FetchResult := fun w _ =>
  if w = "STATEFP='08'" then okPage [denverPt] false else okPage [] false

/-- A chain in which only the match-all filter yields features: a
nationwide pair, one inside Colorado and one outside. -/
def matchAllOnlyChain : String → Nat → FetchResult := fun w _ =>
  if w = "1=1" then okPage [denverPt, farEastPt] false else okPage [] false

/-- A MultiPoint with one vertex, `[-105, 39]`, inside the Colorado box;
its other vertex `[7, 50]` has a single-digit longitude, which the
extraction regex drops. -/
def insideVertexFeature : Feature :=
  { geometry := some
      { gtype := "MultiPoint",
        coordinates := Coords.arr [Coords.arr [jn 7 0, jn 50 0],
          Coords.arr [jn (-105) 0, jn 39 0]] },
    properties := [] }

/-- A MultiPoint both of whose vertices, `[-105, 7]` and `[38, 60]`, lie
outside the Colorado box (latitude 7 and longitude 38 are out of range). -/
def outsideFeature : Feature :=
  { geometry := some
      { gtype := "MultiPoint",
        coordinates := Coords.arr [Coords.arr [jn (-105) 0, jn 7 0],
          Coords.arr [jn 38 0, jn 60 0]] },
    properties := [] }


/-! ## Trace lemmas for the pagination loop -/

theorem queryLoop_err {server : Nat → FetchResult} {offset remaining : Nat}
    {acc : List Feature} (h : server offset = FetchResult.err) :
    queryLoop server offset remaining acc = (acc, [offset]) := by
  unfold queryLoop
  rw [h]

theorem queryLoop_empty {server : Nat → FetchResult} {offset remaining : Nat}
    {acc : List Feature} {gj : GeoJson}
    (h : server offset = FetchResult.ok gj) (he : featsOf gj = []) :
    queryLoop server offset remaining acc = (acc, [offset]) := by
  unfold queryLoop
  rw [h]
  simp [he]

theorem queryLoop_short {server : Nat → FetchResult} {offset remaining : Nat}
    {acc : List Feature} {gj : GeoJson}
    (h : server offset = FetchResult.ok gj) (hne : featsOf gj ≠ [])
    (hs : (!exceededOf gj && decide ((featsOf gj).length < PAGE)) = true) :
    queryLoop server offset remaining acc = (acc ++ featsOf gj, [offset]) := by
  unfold queryLoop
  rw [h]
  simp [hne, hs]

theorem queryLoop_ceiling {server : Nat → FetchResult} {offset : Nat}
    {acc : List Feature} {gj : GeoJson}
    (h : server offset = FetchResult.ok gj) (hne : featsOf gj ≠ [])
    (hs : (!exceededOf gj && decide ((featsOf gj).length < PAGE)) = false) :
    queryLoop server offset 0 acc = (acc ++ featsOf gj, [offset]) := by
  unfold queryLoop
  rw [h]
  simp [hne, hs]

theorem queryLoop_cont {server : Nat → FetchResult} {offset r : Nat}
    {acc : List Feature} {gj : GeoJson}
    (h : server offset = FetchResult.ok gj) (hne : featsOf gj ≠ [])
    (hs : (!exceededOf gj && decide ((featsOf gj).length < PAGE)) = false) :
    queryLoop server offset (r + 1) acc =
      ((queryLoop server (offset + PAGE) r (acc ++ featsOf gj)).1,
       offset :: (queryLoop server (offset + PAGE) r (acc ++ featsOf gj)).2) := by
  conv_lhs => unfold queryLoop
  rw [h]
  simp [hne, hs]

theorem queryLoop_reqs_ne_nil (server : Nat → FetchResult)
    (remaining offset : Nat) (acc : List Feature) :
    (queryLoop server offset remaining acc).2 ≠ [] := by
  cases hsrv : server offset with
  | err => rw [queryLoop_err hsrv]; simp
  | ok gj =>
      by_cases he : featsOf gj = []
      · rw [queryLoop_empty hsrv he]; simp
      · cases hcond : (!exceededOf gj && decide ((featsOf gj).length < PAGE)) with
        | true => rw [queryLoop_short hsrv he hcond]; simp
        | false =>
            cases remaining with
            | zero => rw [queryLoop_ceiling hsrv he hcond]; simp
            | succ r => rw [queryLoop_cont hsrv he hcond]; simp

theorem queryLoop_len_le (server : Nat → FetchResult) :
    ∀ (remaining offset : Nat) (acc : List Feature),
      (queryLoop server offset remaining acc).2.length ≤ remaining + 1 := by
  intro remaining
  induction remaining with
  | zero =>
      intro offset acc
      cases hsrv : server offset with
      | err => rw [queryLoop_err hsrv]; simp
      | ok gj =>
          by_cases he : featsOf gj = []
          · rw [queryLoop_empty hsrv he]; simp
          · cases hcond : (!exceededOf gj && decide ((featsOf gj).length < PAGE)) with
            | true => rw [queryLoop_short hsrv he hcond]; simp
            | false => rw [queryLoop_ceiling hsrv he hcond]; simp
  | succ r ih =>
      intro offset acc
      cases hsrv : server offset with
      | err => rw [queryLoop_err hsrv]; simp
      | ok gj =>
          by_cases he : featsOf gj = []
          · rw [queryLoop_empty hsrv he]; simp
          · cases hcond : (!exceededOf gj && decide ((featsOf gj).length < PAGE)) with
            | true => rw [queryLoop_short hsrv he hcond]; simp
            | false =>
                rw [queryLoop_cont hsrv he hcond]
                have := ih (offset + PAGE) (acc ++ featsOf gj)
                simp only [List.length_cons]
                omega

theorem queryLoop_getD (server : Nat → FetchResult) :
    ∀ (remaining offset : Nat) (acc : List Feature) (i : Nat),
      i < (queryLoop server offset remaining acc).2.length →
      (queryLoop server offset remaining acc).2.getD i 0 = offset + PAGE * i := by
  intro remaining
  induction remaining with
  | zero =>
      intro offset acc i hi
      cases hsrv : server offset with
      | err =>
          rw [queryLoop_err hsrv] at hi ⊢
          simp at hi
          simp [hi]
      | ok gj =>
          by_cases he : featsOf gj = []
          · rw [queryLoop_empty hsrv he] at hi ⊢
            simp at hi
            simp [hi]
          · cases hcond : (!exceededOf gj && decide ((featsOf gj).length < PAGE)) with
            | true =>
                rw [queryLoop_short hsrv he hcond] at hi ⊢
                simp at hi
                simp [hi]
            | false =>
                rw [queryLoop_ceiling hsrv he hcond] at hi ⊢
                simp at hi
                simp [hi]
  | succ r ih =>
      intro offset acc i hi
      cases hsrv : server offset with
      | err =>
          rw [queryLoop_err hsrv] at hi ⊢
          simp at hi
          simp [hi]
      | ok gj =>
          by_cases he : featsOf gj = []
          · rw [queryLoop_empty hsrv he] at hi ⊢
            simp at hi
            simp [hi]
          · cases hcond : (!exceededOf gj && decide ((featsOf gj).length < PAGE)) with
            | true =>
                rw [queryLoop_short hsrv he hcond] at hi ⊢
                simp at hi
                simp [hi]
            | false =>
                rw [queryLoop_cont hsrv he hcond] at hi ⊢
                cases i with
                | zero => simp
                | succ j =>
                    simp only [List.length_cons] at hi
                    have hj : j < (queryLoop server (offset + PAGE) r
                        (acc ++ featsOf gj)).2.length := by omega
                    have := ih (offset + PAGE) (acc ++ featsOf gj) j hj
                    simp only [List.getD_cons_succ]
                    rw [this, Nat.mul_succ]
                    omega

theorem queryLoop_features_eq (server : Nat → FetchResult) :
    ∀ (remaining offset : Nat) (acc : List Feature),
      (queryLoop server offset remaining acc).1 =
        acc ++ ((queryLoop server offset remaining acc).2.map
          fun o => retrieved (server o)).flatten := by
  intro remaining
  induction remaining with
  | zero =>
      intro offset acc
      cases hsrv : server offset with
      | err => rw [queryLoop_err hsrv]; simp [retrieved, hsrv]
      | ok gj =>
          by_cases he : featsOf gj = []
          · rw [queryLoop_empty hsrv he]; simp [retrieved, hsrv, he]
          · cases hcond : (!exceededOf gj && decide ((featsOf gj).length < PAGE)) with
            | true => rw [queryLoop_short hsrv he hcond]; simp [retrieved, hsrv]
            | false => rw [queryLoop_ceiling hsrv he hcond]; simp [retrieved, hsrv]
  | succ r ih =>
      intro offset acc
      cases hsrv : server offset with
      | err => rw [queryLoop_err hsrv]; simp [retrieved, hsrv]
      | ok gj =>
          by_cases he : featsOf gj = []
          · rw [queryLoop_empty hsrv he]; simp [retrieved, hsrv, he]
          · cases hcond : (!exceededOf gj && decide ((featsOf gj).length < PAGE)) with
            | true => rw [queryLoop_short hsrv he hcond]; simp [retrieved, hsrv]
            | false =>
                rw [queryLoop_cont hsrv he hcond]
                have hr : retrieved (server offset) = featsOf gj := by
                  rw [hsrv]
                  rfl
                simp only [List.map_cons, List.flatten_cons, hr]
                rw [ih (offset + PAGE) (acc ++ featsOf gj)]
                simp [List.append_assoc]

theorem queryLoop_continues_mid (server : Nat → FetchResult) :
    ∀ (remaining offset : Nat) (acc : List Feature) (i : Nat),
      i + 1 < (queryLoop server offset remaining acc).2.length →
      continues (server (offset + PAGE * i)) := by
  intro remaining
  induction remaining with
  | zero =>
      intro offset acc i hi
      cases hsrv : server offset with
      | err => rw [queryLoop_err hsrv] at hi; simp at hi
      | ok gj =>
          by_cases he : featsOf gj = []
          · rw [queryLoop_empty hsrv he] at hi; simp at hi
          · cases hcond : (!exceededOf gj && decide ((featsOf gj).length < PAGE)) with
            | true => rw [queryLoop_short hsrv he hcond] at hi; simp at hi
            | false => rw [queryLoop_ceiling hsrv he hcond] at hi; simp at hi
  | succ r ih =>
      intro offset acc i hi
      cases hsrv : server offset with
      | err => rw [queryLoop_err hsrv] at hi; simp at hi
      | ok gj =>
          by_cases he : featsOf gj = []
          · rw [queryLoop_empty hsrv he] at hi; simp at hi
          · cases hcond : (!exceededOf gj && decide ((featsOf gj).length < PAGE)) with
            | true => rw [queryLoop_short hsrv he hcond] at hi; simp at hi
            | false =>
                rw [queryLoop_cont hsrv he hcond] at hi
                cases i with
                | zero => exact ⟨gj, by simpa using hsrv, he, hcond⟩
                | succ j =>
                    simp only [List.length_cons] at hi
                    have := ih (offset + PAGE) (acc ++ featsOf gj) j (by omega)
                    have harith : offset + PAGE + PAGE * j = offset + PAGE * (j + 1) := by
                      rw [Nat.mul_succ]; omega
                    rwa [harith] at this

theorem queryLoop_extends (server : Nat → FetchResult) :
    ∀ (remaining offset : Nat) (acc : List Feature) (i : Nat),
      i < (queryLoop server offset remaining acc).2.length →
      i < remaining →
      continues (server (offset + PAGE * i)) →
      i + 1 < (queryLoop server offset remaining acc).2.length := by
  intro remaining
  induction remaining with
  | zero => intro offset acc i _ hrem _; omega
  | succ r ih =>
      intro offset acc i hi hrem hcont
      cases hsrv : server offset with
      | err =>
          rw [queryLoop_err hsrv] at hi
          simp at hi
          obtain ⟨gj, heq, -, -⟩ := hcont
          rw [hi] at heq
          simp only [Nat.mul_zero, Nat.add_zero] at heq
          rw [hsrv] at heq
          cases heq
      | ok gj =>
          by_cases he : featsOf gj = []
          · rw [queryLoop_empty hsrv he] at hi
            simp at hi
            obtain ⟨gj2, heq, hne2, -⟩ := hcont
            rw [hi] at heq
            simp only [Nat.mul_zero, Nat.add_zero] at heq
            rw [hsrv] at heq
            cases heq
            exact absurd he hne2
          · cases hcond : (!exceededOf gj && decide ((featsOf gj).length < PAGE)) with
            | true =>
                rw [queryLoop_short hsrv he hcond] at hi
                simp at hi
                obtain ⟨gj2, heq, -, hc2⟩ := hcont
                rw [hi] at heq
                simp only [Nat.mul_zero, Nat.add_zero] at heq
                rw [hsrv] at heq
                cases heq
                rw [hcond] at hc2
                cases hc2
            | false =>
                rw [queryLoop_cont hsrv he hcond] at hi ⊢
                cases i with
                | zero =>
                    simp only [List.length_cons]
                    have := queryLoop_reqs_ne_nil server r (offset + PAGE)
                      (acc ++ featsOf gj)
                    have hpos := List.length_pos.mpr this
                    omega
                | succ j =>
                    simp only [List.length_cons] at hi ⊢
                    have harith : offset + PAGE * (j + 1) = offset + PAGE + PAGE * j := by
                      rw [Nat.mul_succ]; omega
                    rw [harith] at hcont
                    have := ih (offset + PAGE) (acc ++ featsOf gj) j (by omega)
                      (by omega) hcont
                    omega

theorem arcgisQuery_reqs_ne_nil (server : Nat → FetchResult) :
    (arcgisQuery server).2 ≠ [] :=
  queryLoop_reqs_ne_nil server 150 0 []

theorem arcgisQuery_len_le (server : Nat → FetchResult) :
    (arcgisQuery server).2.length ≤ 151 :=
  queryLoop_len_le server 150 0 []

theorem arcgisQuery_getD (server : Nat → FetchResult) (i : Nat)
    (hi : i < (arcgisQuery server).2.length) :
    (arcgisQuery server).2.getD i 0 = PAGE * i := by
  have := queryLoop_getD server 150 0 [] i hi
  simpa using this

theorem arcgisQuery_features_eq (server : Nat → FetchResult) :
    (arcgisQuery server).1.features =
      ((arcgisQuery server).2.map fun o => retrieved (server o)).flatten := by
  have := queryLoop_features_eq server 150 0 []
  simpa using this

theorem arcgisQuery_continues_mid (server : Nat → FetchResult) (i : Nat)
    (h : i + 1 < (arcgisQuery server).2.length) :
    continues (server (PAGE * i)) := by
  have := queryLoop_continues_mid server 150 0 [] i h
  simpa using this

theorem arcgisQuery_extends (server : Nat → FetchResult) (i : Nat)
    (hi : i < (arcgisQuery server).2.length) (h150 : i < 150)
    (hc : continues (server (PAGE * i))) :
    i + 1 < (arcgisQuery server).2.length :=
  queryLoop_extends server 150 0 [] i hi h150 (by simpa using hc)

/-! ## Lemmas for the fallback chain -/

theorem processedFeatures_raw_empty {server : String → Nat → FetchResult}
    {w : String} (h : (arcgisQuery (server w)).1.features = []) :
    processedFeatures server w = [] := by
  show (if w = "1=1" then coBboxFilter (arcgisQuery (server w)).1.features
        else (arcgisQuery (server w)).1.features) = []
  rw [h]
  split <;> rfl

theorem tryFilters_all_empty (server : String → Nat → FetchResult) :
    ∀ ws : List String, (∀ w ∈ ws, processedFeatures server w = []) →
      tryFilters server ws = (none, ws) := by
  intro ws
  induction ws with
  | nil => intro _; rfl
  | cons w ws ih =>
      intro h
      have hw : processedFeatures server w = [] := h w (by simp)
      have hrest := ih fun x hx => h x (by simp [hx])
      have hproc : (if w = "1=1" then coBboxFilter (arcgisQuery (server w)).1.features
          else (arcgisQuery (server w)).1.features) = [] := hw
      unfold tryFilters
      by_cases hraw : (arcgisQuery (server w)).1.features.isEmpty
      · simp [hraw, hrest]
      · simp [hraw, hproc, hrest]

theorem tryFilters_first_success (server : String → Nat → FetchResult) :
    ∀ (ws : List String) (i : Nat), i < ws.length →
      (∀ j, j < i → processedFeatures server (ws.getD j "") = []) →
      processedFeatures server (ws.getD i "") ≠ [] →
      tryFilters server ws =
        (some { type := "FeatureCollection",
                features := processedFeatures server (ws.getD i "") },
         ws.take (i + 1)) := by
  intro ws
  induction ws with
  | nil => intro i hi; simp at hi
  | cons w ws ih =>
      intro i hi hbef hsucc
      cases i with
      | zero =>
          have hproc : processedFeatures server w ≠ [] := by simpa using hsucc
          have hraw : ¬(arcgisQuery (server w)).1.features.isEmpty := by
            intro hcontra
            exact hproc (processedFeatures_raw_empty (by simpa using hcontra))
          have hifne : ¬(if w = "1=1" then coBboxFilter (arcgisQuery (server w)).1.features
              else (arcgisQuery (server w)).1.features) = [] := hproc
          unfold tryFilters
          simp only [List.getD_cons_zero] at hsucc ⊢
          simp [hraw, hifne]
          exact ⟨rfl, rfl⟩
      | succ j =>
          have hw : processedFeatures server w = [] := by
            simpa using hbef 0 (Nat.succ_pos j)
          have hproc : (if w = "1=1" then coBboxFilter (arcgisQuery (server w)).1.features
              else (arcgisQuery (server w)).1.features) = [] := hw
          have hrec := ih j (by simpa using hi)
            (fun k hk => by simpa using hbef (k + 1) (by omega))
            (by simpa using hsucc)
          unfold tryFilters
          by_cases hraw : (arcgisQuery (server w)).1.features.isEmpty
          · simp [hraw, hrec]
          · simp [hraw, hproc, hrec]

/-! ## The integer comparisons of `inCoBbox` agree with the rational reading -/

theorem gtFrac_iff_toRat (x : JsNum) (a b : Int) (hb : 0 < b) :
    x.gtFrac a b = true ↔ (a : ℚ) / (b : ℚ) < x.toRat := by
  unfold JsNum.gtFrac JsNum.toRat
  rw [decide_eq_true_iff, gt_iff_lt,
    div_lt_div_iff₀ (by exact_mod_cast hb) (by positivity)]
  constructor
  · intro h
    have h2 : ((a * 10 ^ x.exp : Int) : ℚ) < ((b * x.mant : Int) : ℚ) := by
      exact_mod_cast h
    push_cast at h2
    linarith
  · intro h
    have h2 : ((a * 10 ^ x.exp : Int) : ℚ) < ((b * x.mant : Int) : ℚ) := by
      push_cast
      linarith
    exact_mod_cast h2

theorem ltFrac_iff_toRat (x : JsNum) (a b : Int) (hb : 0 < b) :
    x.ltFrac a b = true ↔ x.toRat < (a : ℚ) / (b : ℚ) := by
  unfold JsNum.ltFrac JsNum.toRat
  rw [decide_eq_true_iff,
    div_lt_div_iff₀ (by positivity) (by exact_mod_cast hb)]
  constructor
  · intro h
    have h2 : ((b * x.mant : Int) : ℚ) < ((a * 10 ^ x.exp : Int) : ℚ) := by
      exact_mod_cast h
    push_cast at h2
    linarith
  · intro h
    have h2 : ((b * x.mant : Int) : ℚ) < ((a * 10 ^ x.exp : Int) : ℚ) := by
      push_cast
      linarith
    exact_mod_cast h2

theorem inCoBbox_iff_toRat (lng lat : JsNum) :
    inCoBbox lng lat = true ↔
      (-110 : ℚ) < lng.toRat ∧ lng.toRat < -102 ∧
        (36.5 : ℚ) < lat.toRat ∧ lat.toRat < 41.5 := by
  unfold inCoBbox
  simp only [Bool.and_eq_true]
  rw [gtFrac_iff_toRat lng (-110) 1 (by norm_num),
    ltFrac_iff_toRat lng (-102) 1 (by norm_num),
    gtFrac_iff_toRat lat 73 2 (by norm_num),
    ltFrac_iff_toRat lat 83 2 (by norm_num)]
  norm_num
  tauto

/-! ## The claims -/

/-- C1.  The claim says the engine issues exactly ceil(N/P) requests and, in
particular, stops after 2 requests for a service holding exactly 2000
features (ceil(2000/1000) = 2).  The code disagrees: after a full page with
no truncation signal it always requests the next offset, so a service whose
size is an exact multiple of the page size receives one extra request.
This theorem evaluates the code at that input: 3 requests, at offsets 0,
1000 and 2000 (the returned collection does hold all 2000 features). -/
theorem c1_exact_multiple_extra_request :
    (arcgisQuery twoFullPagesServer).2 = [0, 1000, 2000] ∧
    (arcgisQuery twoFullPagesServer).1.features.length = 2000 := by
  constructor <;> decide

/-- C2, counterexample to the claim as stated.  The claim quantifies over
every response with `exceededTransferLimit: true` and says a further page
request follows "even if the returned page contains fewer features than
the page size".  A response with zero features (fewer than P) and the flag
true refutes it: the engine checks `feats.length === 0` first and stops
after the single request at offset 0. -/
theorem c2_empty_page_with_flag_stops :
    (∃ gj, emptyExceededServer 0 = FetchResult.ok gj ∧ exceededOf gj = true ∧
      (featsOf gj).length < PAGE) ∧
    (arcgisQuery emptyExceededServer).2 = [0] := by
  refine ⟨⟨_, rfl, rfl, by decide⟩, by decide⟩

/-- C2, amended: for every response that carries at least one feature and
`exceededTransferLimit: true`, received while the hard page ceiling still
permits another iteration (request index < 150), the engine issues a
further page request, at the next offset `PAGE * (i+1)` — regardless of
whether the page was shorter than the page size. -/
theorem c2_truncation_flag_forces_next_request (server : Nat → FetchResult)
    (i : Nat) (gj : GeoJson)
    (hi : i < (arcgisQuery server).2.length) (hceil : i < 150)
    (hok : server (PAGE * i) = FetchResult.ok gj)
    (hne : featsOf gj ≠ []) (hex : exceededOf gj = true) :
    i + 1 < (arcgisQuery server).2.length ∧
    (arcgisQuery server).2.getD (i + 1) 0 = PAGE * (i + 1) := by
  have hcont : continues (server (PAGE * i)) := by
    refine ⟨gj, hok, hne, ?_⟩
    simp [hex]
  have hlt := arcgisQuery_extends server i hi hceil hcont
  exact ⟨hlt, arcgisQuery_getD server (i + 1) hlt⟩

/-- C2, witness: the spec's own scenario.  Offset 0 returns a full page
with the flag true, offset 1000 returns 400 features with the flag absent:
the engine requests offsets 0 and 1000, stops, and returns 1400 features;
the amended theorem yields the second request. -/
theorem c2_truncation_scenario_witness :
    (arcgisQuery truncScenarioServer).2 = [0, 1000] ∧
    (arcgisQuery truncScenarioServer).1.features.length = 1400 ∧
    1 < (arcgisQuery truncScenarioServer).2.length := by
  refine ⟨by decide, by decide, ?_⟩
  exact (c2_truncation_flag_forces_next_request truncScenarioServer 0
    { features? := some (List.replicate 1000 pageFeature),
      exceededTransferLimit := true, propertiesExceededTransferLimit := false }
    (by decide) (by decide) rfl
    (fun h => absurd (congrArg List.length h) (by decide)) rfl).1

/-- C3, counterexample to the claim as stated.  The claim says a failed
page request aborts pagination, propagates the error (partial results are
not returned as success), and makes the fallback chain advance to the next
candidate.  The code instead catches the failure, breaks, and returns the
partial collection as an ordinary result: for a service whose first page
is full (flag true) and whose second request fails, the engine requested
offsets 0 and 1000, returns the 1000 partial features as a success, and
the chain accepts its very first candidate — it never advances. -/
theorem c3_failed_page_partial_accepted :
    failsOnSecondPageServer 1000 = FetchResult.err ∧
    (arcgisQuery failsOnSecondPageServer).2 = [0, 1000] ∧
    (arcgisQuery failsOnSecondPageServer).1.features.length = 1000 ∧
    (tryLoadFromAPI failsOnSecondPageChain "STATEFP='08'").1 =
      Except.ok { type := "FeatureCollection",
                  features := List.replicate 1000 pageFeature } ∧
    (tryLoadFromAPI failsOnSecondPageChain "STATEFP='08'").2 = ["STATEFP='08'"] := by
  exact ⟨rfl, by decide, by decide, rfl, rfl⟩

/-- C3, amended: a failed page request ends the pagination (it is the last
request of the trace), and the engine returns the partial collection
accumulated before it as a success value — no error reaches the caller,
so the fallback chain advances only when that collection is empty. -/
theorem c3_failed_page_ends_pagination_with_partial (server : Nat → FetchResult)
    (i : Nat) (hi : i < (arcgisQuery server).2.length)
    (herr : server ((arcgisQuery server).2.getD i 0) = FetchResult.err) :
    i = (arcgisQuery server).2.length - 1 ∧
    (arcgisQuery server).1.features =
      (((arcgisQuery server).2.take i).map fun o => retrieved (server o)).flatten := by
  rw [arcgisQuery_getD server i hi] at herr
  have hlast : ¬(i + 1 < (arcgisQuery server).2.length) := by
    intro hlt
    obtain ⟨gj, heq, -, -⟩ := arcgisQuery_continues_mid server i hlt
    rw [herr] at heq
    cases heq
  refine ⟨by omega, ?_⟩
  have hsplit : ((arcgisQuery server).2.take i).concat (arcgisQuery server).2[i] =
      (arcgisQuery server).2 := by
    rw [List.take_concat_get _ _ hi]
    exact List.take_of_length_le (by omega)
  have hlastpage : retrieved (server (arcgisQuery server).2[i]) = [] := by
    rw [← List.getD_eq_getElem _ 0 hi, arcgisQuery_getD server i hi, herr]
    rfl
  calc (arcgisQuery server).1.features
      = ((arcgisQuery server).2.map fun o => retrieved (server o)).flatten :=
        arcgisQuery_features_eq server
    _ = ((((arcgisQuery server).2.take i).concat
          (arcgisQuery server).2[i]).map fun o => retrieved (server o)).flatten := by
        rw [hsplit]
    _ = (((arcgisQuery server).2.take i).map fun o => retrieved (server o)).flatten := by
        rw [List.concat_eq_append, List.map_append, List.flatten_append]
        simp [hlastpage]

/-- C3, witness for the amended claim: for the service failing on its
second page, request index 1 is the last, and the result is exactly the
one successfully retrieved page. -/
theorem c3_failed_page_witness :
    1 = (arcgisQuery failsOnSecondPageServer).2.length - 1 ∧
    (arcgisQuery failsOnSecondPageServer).1.features =
      (((arcgisQuery failsOnSecondPageServer).2.take 1).map
        fun o => retrieved (failsOnSecondPageServer o)).flatten :=
  c3_failed_page_ends_pagination_with_partial failsOnSecondPageServer 1
    (by decide) rfl

/-- C4, counterexample to the claim as stated.  The claim says the engine
never issues more than the configured hard ceiling of 150 page requests.
The guard `if (pages > 150) break` only fires after the counter passes
150, so a misbehaving service returning non-empty flagged pages forever
receives 151 requests. -/
theorem c4_relentless_service_151_requests :
    (arcgisQuery relentlessServer).2.length = 151 ∧
    150 < (arcgisQuery relentlessServer).2.length := by
  constructor <;> decide

/-- C4, amended: for every server behavior the engine issues at most 151
page requests (one more than the guard's constant 150), and on stopping —
ceiling included — it returns the accumulated collection as an ordinary
FeatureCollection rather than raising an error. -/
theorem c4_hard_ceiling_151 (server : Nat → FetchResult) :
    (arcgisQuery server).2.length ≤ 151 ∧
    (arcgisQuery server).1.type = "FeatureCollection" ∧
    (arcgisQuery server).1.features =
      ((arcgisQuery server).2.map fun o => retrieved (server o)).flatten :=
  ⟨arcgisQuery_len_le server, rfl, arcgisQuery_features_eq server⟩

/-- C5.  For every fallback-chain server and every index i into the
chain's candidate filter list: if every earlier candidate yields an empty
(processed) collection and candidate i yields a non-empty one, the chain
returns exactly candidate i's collection, and the candidates attempted are
precisely the first i+1 — later candidates are never attempted. -/
theorem c5_first_nonempty_candidate_short_circuits
    (server : String → Nat → FetchResult) (coWhere : String) (i : Nat)
    (hi : i < (filters coWhere).length)
    (hbefore : ∀ j, j < i → processedFeatures server ((filters coWhere).getD j "") = [])
    (hsucc : processedFeatures server ((filters coWhere).getD i "") ≠ []) :
    (tryLoadFromAPI server coWhere).1 =
      Except.ok { type := "FeatureCollection",
                  features := processedFeatures server ((filters coWhere).getD i "") } ∧
    (tryLoadFromAPI server coWhere).2 = (filters coWhere).take (i + 1) := by
  have h := tryFilters_first_success server (filters coWhere) i hi hbefore hsucc
  have h1 : (tryFilters server (filters coWhere)).1 =
      some { type := "FeatureCollection",
             features := processedFeatures server ((filters coWhere).getD i "") } := by
    rw [h]
  have h2 : (tryFilters server (filters coWhere)).2 = (filters coWhere).take (i + 1) := by
    rw [h]
  constructor
  · show (match (tryFilters server (filters coWhere)).1 with
          | some fc => Except.ok fc
          | none => Except.error "API exhausted") = _
    rw [h1]
  · exact h2

/-- C5, witness: a chain whose first Colorado candidate already yields one
feature returns that collection and attempts only that single candidate. -/
theorem c5_short_circuit_witness :
    processedFeatures firstFilterChain "STATEFP='08'" ≠ [] ∧
    (tryLoadFromAPI firstFilterChain "STATEFP='08'").1 =
      Except.ok
        { type := "FeatureCollection",
          features := processedFeatures firstFilterChain
            ((filters "STATEFP='08'").getD 0 "") } ∧
    (tryLoadFromAPI firstFilterChain "STATEFP='08'").2 =
      (filters "STATEFP='08'").take 1 := by
  have hne : processedFeatures firstFilterChain "STATEFP='08'" ≠ [] := by
    have hev : processedFeatures firstFilterChain "STATEFP='08'" = [denverPt] := rfl
    rw [hev]
    simp
  have h := c5_first_nonempty_candidate_short_circuits firstFilterChain
    "STATEFP='08'" 0 (by decide) (fun j hj => absurd hj (Nat.not_lt_zero j)) hne
  exact ⟨hne, h.1, h.2⟩

/-- C6.  If the HUD query behind `loadLIHTC` returns an empty collection,
and every (filter) candidate of the QCT and DDA chains returns an empty
collection, then the collections the callers render are exactly the
embedded fallback datasets, unmodified. -/
theorem c6_all_empty_uses_embedded_fallback
    (sL : Nat → FetchResult) (sQ sD : String → Nat → FetchResult)
    (hL : (arcgisQuery sL).1.features = [])
    (hQ : ∀ w ∈ filters "STATEFP='08'", (arcgisQuery (sQ w)).1.features = [])
    (hD : ∀ w ∈ filters "STATEFP='08'", (arcgisQuery (sD w)).1.features = []) :
    loadLIHTC sL = FALLBACK_LIHTC ∧ ensureQCT sQ = FALLBACK_QCT ∧
      ensureDDA sD = FALLBACK_DDA := by
  refine ⟨?_, ?_, ?_⟩
  · show (if (arcgisQuery sL).1.features.isEmpty then FALLBACK_LIHTC
          else (arcgisQuery sL).1) = FALLBACK_LIHTC
    simp [hL]
  · have h := tryFilters_all_empty sQ (filters "STATEFP='08'")
      (fun w hw => processedFeatures_raw_empty (hQ w hw))
    have h1 : (tryFilters sQ (filters "STATEFP='08'")).1 = none := by rw [h]
    simp [ensureQCT, tryLoadFromAPI, h1]
  · have h := tryFilters_all_empty sD (filters "STATEFP='08'")
      (fun w hw => processedFeatures_raw_empty (hD w hw))
    have h1 : (tryFilters sD (filters "STATEFP='08'")).1 = none := by rw [h]
    simp [ensureDDA, tryLoadFromAPI, h1]

/-- C6, witness: against servers that return no features for any request,
all three loaders render exactly their embedded fallback datasets. -/
theorem c6_fallback_witness :
    loadLIHTC emptyServer = FALLBACK_LIHTC ∧ ensureQCT emptyChain = FALLBACK_QCT ∧
      ensureDDA emptyChain = FALLBACK_DDA :=
  c6_all_empty_uses_embedded_fallback emptyServer emptyChain emptyChain rfl
    (fun _ _ => rfl) (fun _ _ => rfl)

/-- C7.  Under the hypotheses of the short-circuit theorem (candidate i is
the first success), the accepted collection is the paginated query's
result passed through the Colorado bounding-box filter exactly when
candidate i is the match-all filter `1=1`; for every other (state-specific)
candidate the query result is accepted without client-side filtering. -/
theorem c7_match_all_bbox_filtered
    (server : String → Nat → FetchResult) (coWhere : String) (i : Nat)
    (hi : i < (filters coWhere).length)
    (hbefore : ∀ j, j < i → processedFeatures server ((filters coWhere).getD j "") = [])
    (hsucc : processedFeatures server ((filters coWhere).getD i "") ≠ []) :
    (tryLoadFromAPI server coWhere).1 =
      Except.ok
        { type := "FeatureCollection",
          features :=
            if (filters coWhere).getD i "" = "1=1" then
              coBboxFilter (arcgisQuery (server ((filters coWhere).getD i ""))).1.features
            else (arcgisQuery (server ((filters coWhere).getD i ""))).1.features } := by
  have h := tryFilters_first_success server (filters coWhere) i hi hbefore hsucc
  have h1 : (tryFilters server (filters coWhere)).1 =
      some { type := "FeatureCollection",
             features := processedFeatures server ((filters coWhere).getD i "") } := by
    rw [h]
  show (match (tryFilters server (filters coWhere)).1 with
        | some fc => Except.ok fc
        | none => Except.error "API exhausted") = _
  rw [h1]
  rfl

/-- C7, witness: the spec's scenario.  Every state-specific candidate
returns zero features and the match-all candidate returns a nationwide
pair; the chain accepts the match-all candidate's collection only after
the bounding-box filter, so the rendered collection keeps the Colorado
point and drops the one outside. -/
theorem c7_match_all_witness :
    (tryLoadFromAPI matchAllOnlyChain "STATEFP='08'").1 =
      Except.ok
        { type := "FeatureCollection",
          features :=
            if (filters "STATEFP='08'").getD 5 "" = "1=1" then
              coBboxFilter (arcgisQuery (matchAllOnlyChain
                ((filters "STATEFP='08'").getD 5 ""))).1.features
            else (arcgisQuery (matchAllOnlyChain
              ((filters "STATEFP='08'").getD 5 ""))).1.features } ∧
    (tryLoadFromAPI matchAllOnlyChain "STATEFP='08'").1 =
      Except.ok { type := "FeatureCollection", features := [denverPt] } := by
  constructor
  · exact c7_match_all_bbox_filtered matchAllOnlyChain "STATEFP='08'" 5
      (by decide)
      (by intro j hj; interval_cases j <;> rfl)
      (by
        have hev : processedFeatures matchAllOnlyChain
            ((filters "STATEFP='08'").getD 5 "") = [denverPt] := rfl
        rw [hev]
        simp)
  · rfl

/-- C8.  The claim says the bounding-box client filter excludes every
feature lying entirely outside the bound and includes every feature with a
vertex inside it.  The code extracts coordinates by matching
`JSON.stringify` output against a regex that needs two digit characters
per number, so a single-digit coordinate (such as 7) vanishes and the
longitude/latitude pairing of everything after it shifts by one.  This
theorem evaluates the filter at both failures: `insideVertexFeature` has
the vertex [-105, 39] inside the bound (first conjunct) yet is excluded,
and `outsideFeature` has both vertices outside the bound (third and
fourth conjuncts) yet is included. -/
theorem c8_bbox_filter_regex_failure :
    inCoBbox (jd (-105) 0) (jd 39 0) = true ∧
    coBboxFilter [insideVertexFeature] = [] ∧
    inCoBbox (jd (-105) 0) (jd 7 0) = false ∧
    inCoBbox (jd 38 0) (jd 60 0) = false ∧
    coBboxFilter [outsideFeature] = [outsideFeature] :=
  ⟨by decide, rfl, by decide, by decide, rfl⟩

/-- C9.  For every server behavior, the engine's requested offsets are
strictly increasing (so no offset is ever requested twice), and the merged
collection never contains more features than the sum of the feature counts
of all retrieved pages. -/
theorem c9_offsets_increasing_count_bounded (server : Nat → FetchResult) :
    List.Chain' (· < ·) (arcgisQuery server).2 ∧
    (arcgisQuery server).1.features.length ≤
      ((arcgisQuery server).2.map fun o => (retrieved (server o)).length).sum := by
  constructor
  · rw [List.chain'_iff_get]
    intro i h
    rw [List.get_eq_getElem, List.get_eq_getElem,
      ← List.getD_eq_getElem _ 0 (by omega), ← List.getD_eq_getElem _ 0 (by omega),
      arcgisQuery_getD server i (by omega), arcgisQuery_getD server (i + 1) (by omega),
      Nat.mul_succ]
    have hp : 0 < PAGE := by decide
    omega
  · rw [arcgisQuery_features_eq server, List.length_flatten, List.map_map]
    exact le_of_eq (by rfl)

/-- C10 (implicit).  `arcgisQuery` is total: for every sequence of
per-page outcomes it returns an object of type `'FeatureCollection'`
(never an error), whose features array is exactly the concatenation, in
arrival order, of the features of the retrieved pages — and every
requested page before the last one was successfully retrieved and
non-empty, so that concatenation is precisely the pages retrieved before
the first failing or empty page. -/
theorem c10_total_concatenation (server : Nat → FetchResult) :
    (arcgisQuery server).1.type = "FeatureCollection" ∧
    (arcgisQuery server).1.features =
      ((arcgisQuery server).2.map fun o => retrieved (server o)).flatten ∧
    ∀ i, i + 1 < (arcgisQuery server).2.length →
      retrieved (server ((arcgisQuery server).2.getD i 0)) ≠ [] := by
  refine ⟨rfl, arcgisQuery_features_eq server, ?_⟩
  intro i h
  rw [arcgisQuery_getD server i (by omega)]
  obtain ⟨gj, heq, hne, -⟩ := arcgisQuery_continues_mid server i h
  rw [heq]
  simpa [retrieved] using hne
